import Mathlib

/-!
Verification of the KiForge footprint/symbol generation core.

This file gives a shallow embedding, in Lean 4, of the parts of the
KiForge code base (a Python program that generates KiCad footprints and
schematic symbols) that the specification's claims are about, and proves
or refutes each claim against that embedding.

Modelling conventions:
* Python floats are modelled as rationals; all the geometry in the
  claims is exact decimal arithmetic, and no claim depends on binary
  floating-point rounding.
* Python `str` values are Lean `String`s; Python's `in` substring test,
  `str.lower`, `str.upper` and tuple comparison are embedded explicitly
  below (ASCII case mapping, which covers every name the code matches).
* `uuid.uuid4()` and `datetime.now()` are nondeterministic inputs of the
  program; the embedding passes them as explicit parameters (a uuid
  supply and a timestamp string), following the spec's statement that
  identifiers are cosmetic and not semantically load-bearing.
* Pydantic validators are embedded as smart constructors returning
  `Except String`.
* Python `for` loops that append to a list are rendered as structural
  recursion or `List.range` maps producing the list in the same order.
-/

namespace KiForge

/-! ### String utilities (embedding Python's `lower`, `upper`, `in`) -/

/-- Embedding of Python `str.lower` restricted to ASCII (the name-pattern
tables are all ASCII, so this agrees with Python on every relevant input). -/
def strLower (s : String) : String :=
  ⟨s.data.map Char.toLower⟩

/-- Embedding of Python `str.upper` restricted to ASCII. -/
def strUpper (s : String) : String :=
  ⟨s.data.map Char.toUpper⟩

/-- Does the list `pre` occur at the head of `l`? -/
def charLeads : List Char → List Char → Bool
  | [], _ => true
  | _ :: _, [] => false
  | a :: as, b :: bs => a == b && charLeads as bs

/-- Does `needle` occur contiguously inside `hay`? -/
def charOccurs (needle : List Char) : List Char → Bool
  | [] => charLeads needle []
  | c :: rest => charLeads needle (c :: rest) || charOccurs needle rest

/-- Embedding of Python's substring test `needle in hay`. -/
def strContainsSub (hay needle : String) : Bool :=
  charOccurs needle.data hay.data

/-- Python's strict string comparison: lexicographic by code point. -/
def charListLt : List Char → List Char → Bool
  | [], [] => false
  | [], _ :: _ => true
  | _ :: _, [] => false
  | a :: as, b :: bs =>
    if a.toNat < b.toNat then true
    else if b.toNat < a.toNat then false
    else charListLt as bs

/-- Python `a < b` on strings. -/
def strLt (a b : String) : Bool := charListLt a.data b.data

/-- Python `a <= b` on strings. -/
def strLe (a b : String) : Bool := !(strLt b a)

/-! ### Enumerations (`kiforge/core/models/enums.py`) -/

/-- `PinElectricalType` from `enums.py`. -/
inductive PinElectricalType where
  | input
  | output
  | bidirectional
  | tristate
  | passive
  | free
  | unspecified
  | power_input
  | power_output
  | open_collector
  | open_emitter
  | not_connected
  deriving DecidableEq, Repr

/-- The KiCad keyword for each electrical type (the `str` value of the
Python enum). -/
def PinElectricalType.value : PinElectricalType → String
  | .input => "input"
  | .output => "output"
  | .bidirectional => "bidirectional"
  | .tristate => "tri_state"
  | .passive => "passive"
  | .free => "free"
  | .unspecified => "unspecified"
  | .power_input => "power_in"
  | .power_output => "power_out"
  | .open_collector => "open_collector"
  | .open_emitter => "open_emitter"
  | .not_connected => "no_connect"

/-- `PadShape` from `enums.py`. -/
inductive PadShape where
  | rectangle
  | roundrect
  | oval
  | circle
  | trapezoid
  | custom
  deriving DecidableEq, Repr

def PadShape.value : PadShape → String
  | .rectangle => "rect"
  | .roundrect => "roundrect"
  | .oval => "oval"
  | .circle => "circle"
  | .trapezoid => "trapezoid"
  | .custom => "custom"

/-- `PadType` from `enums.py`. -/
inductive PadType where
  | smd
  | thru_hole
  | npth
  | connect
  deriving DecidableEq, Repr

def PadType.value : PadType → String
  | .smd => "smd"
  | .thru_hole => "thru_hole"
  | .npth => "np_thru_hole"
  | .connect => "connect"

/-- `PackageType` from `enums.py` (the members the claims exercise). -/
inductive PackageType where
  | qfp
  | lqfp
  | tqfp
  | vqfp
  | qfn
  | vqfn
  | wqfn
  | dfn
  | soic
  | sop
  | ssop
  | tssop
  | msop
  | dip
  | bga
  deriving DecidableEq, Repr

/-- `PinOrientation` from `enums.py` (value = KiCad angle string). -/
inductive PinOrientation where
  | right
  | up
  | left
  | down
  deriving DecidableEq, Repr

/-! ### Pin model (`kiforge/core/models/pin.py`) -/

/-- `Pin` from `pin.py`: the fields the claims exercise. Pydantic field
constraints (`min_length=1`, `ge=1`) are not needed by any claim and the
generators never depend on them. -/
structure Pin where
  number : String
  name : String
  electrical_type : PinElectricalType := .unspecified
  unit : Nat := 1
  deriving DecidableEq, Repr

/-- The ground-name pattern table from `Pin.is_ground`. -/
def groundTokens : List String :=
  ["gnd", "vss", "ground", "agnd", "dgnd", "avss", "dvss"]

/-- The supply-name pattern table from `Pin.is_supply`. -/
def supplyTokens : List String :=
  ["vcc", "vdd", "avdd", "dvdd", "vbat", "v+", "vin", "vcore"]

/-- `Pin.is_ground`: some ground token is a substring of the lowercased
name. -/
def Pin.is_ground (p : Pin) : Bool :=
  groundTokens.any (fun g => strContainsSub (strLower p.name) g)

/-- `Pin.is_supply`: some supply token is a substring of the lowercased
name. -/
def Pin.is_supply (p : Pin) : Bool :=
  supplyTokens.any (fun g => strContainsSub (strLower p.name) g)

/-- `Pin.is_nc`. -/
def Pin.is_nc (p : Pin) : Bool :=
  p.electrical_type == .not_connected

/-! ### Component model (`kiforge/core/models/component.py`) -/

/-- `ComponentInfo` (the fields the claims exercise). -/
structure ComponentInfo where
  name : String
  pins : List Pin := []
  deriving DecidableEq, Repr

/-- The duplicate-collection loop inside
`ComponentInfo.validate_unique_pin_numbers`: walk the numbers keeping a
`seen` set, recording every number already seen (Python appends to
`duplicates` and then adds to `seen` on each iteration). -/
def findDuplicates (seen : List String) : List String → List String
  | [] => []
  | n :: rest =>
    (if seen.contains n then [n] else []) ++ findDuplicates (n :: seen) rest

/-- `ComponentInfo.validate_unique_pin_numbers`: reject a pin list whose
numbers are not pairwise distinct (`len(numbers) != len(set(numbers))`),
reporting the duplicated numbers; the Python validator raises a
`ValueError` naming `set(duplicates)`, embedded here as a structured
`Except.error` carrying the duplicates list. -/
def validate_unique_pin_numbers (pins : List Pin) :
    Except (List String) (List Pin) :=
  let numbers := pins.map Pin.number
  if numbers.length ≠ numbers.dedup.length then
    .error (findDuplicates [] numbers)
  else
    .ok pins

/-! ### Symbol engine (`kiforge/core/symbol/generator.py`) -/

/-- `PIN_LENGTH` = 2.54 mm. -/
def pinLength : ℚ := 254/100

/-- `PIN_SPACING` = 2.54 mm. -/
def pinSpacing : ℚ := 254/100

/-- Python tuple comparison of the sort key `(p.name, p.number)`:
lexicographic by name then number, using code-point string order (which
is what Python string comparison is). -/
def pinKeyLe (p q : Pin) : Bool :=
  strLt p.name q.name ||
    (p.name == q.name && strLe p.number q.number)

/-- Ordered insert for the stable sort below. -/
def insertPin (p : Pin) : List Pin → List Pin
  | [] => [p]
  | q :: rest => if pinKeyLe p q then p :: q :: rest else q :: insertPin p rest

/-- Embedding of Python `list.sort(key=lambda p: (p.name, p.number))`.
Python's sort is the stable sort; for a total transitive comparison the
stable sorted permutation is unique, and this structural insertion sort
is stable, so it computes the same list. -/
def sortPins : List Pin → List Pin
  | [] => []
  | p :: rest => insertPin p (sortPins rest)

/-- Ordered insert for sorting by name only. -/
def insertPinByName (p : Pin) : List Pin → List Pin
  | [] => [p]
  | q :: rest =>
    if strLe p.name q.name then p :: q :: rest
    else q :: insertPinByName p rest

/-- Embedding of `list.sort(key=lambda p: p.name)` (stable). -/
def sortPinsByName : List Pin → List Pin
  | [] => []
  | p :: rest => insertPinByName p (sortPinsByName rest)

/-- Ordered insert for sorting strings. -/
def insertStr (s : String) : List String → List String
  | [] => [s]
  | t :: rest => if strLe s t then s :: t :: rest else t :: insertStr s rest

/-- Embedding of Python `sorted` on a list of strings. -/
def sortStrs : List String → List String
  | [] => []
  | s :: rest => insertStr s (sortStrs rest)

/-- The seven category lists built by the classification loop of
`SymbolGenerator._layout_single_unit`. -/
structure PinGroups where
  power : List Pin := []
  ground : List Pin := []
  input : List Pin := []
  output : List Pin := []
  bidir : List Pin := []
  nc : List Pin := []
  other : List Pin := []
  deriving DecidableEq, Repr

/-- The classification loop of `_layout_single_unit` (lines 101-115):
for each pin, in priority order, ground-pattern name, then
supply-pattern name, then electrical type input / output /
bidirectional / not-connected, then everything else. Rendered as
structural recursion producing the categories in the original pin
order, exactly as the Python `append` loop does. -/
def classifyPins : List Pin → PinGroups
  | [] => {}
  | p :: rest =>
    let g := classifyPins rest
    if p.is_ground then { g with ground := p :: g.ground }
    else if p.is_supply then { g with power := p :: g.power }
    else if p.electrical_type == .input then { g with input := p :: g.input }
    else if p.electrical_type == .output then { g with output := p :: g.output }
    else if p.electrical_type == .bidirectional then
      { g with bidir := p :: g.bidir }
    else if p.electrical_type == .not_connected then { g with nc := p :: g.nc }
    else { g with other := p :: g.other }

/-- The four side lists of a single-unit layout. -/
structure UnitSides where
  left : List Pin
  right : List Pin
  top : List Pin
  bottom : List Pin
  deriving DecidableEq, Repr

/-- Side assignment of `_layout_single_unit` (lines 117-129): sort each
category by `(name, number)`, split the bidirectional pins in half
(first `len // 2` left, remainder right), then
left = inputs + left-bidir + others, right = outputs + right-bidir,
top = supplies, bottom = grounds + not-connected. -/
def singleUnitSides (pins : List Pin) : UnitSides :=
  let g := classifyPins pins
  let power := sortPins g.power
  let ground := sortPins g.ground
  let inputs := sortPins g.input
  let outputs := sortPins g.output
  let bidir := sortPins g.bidir
  let ncs := sortPins g.nc
  let others := sortPins g.other
  let left_bidir := bidir.take (bidir.length / 2)
  let right_bidir := bidir.drop (bidir.length / 2)
  { left := inputs ++ left_bidir ++ others
    right := outputs ++ right_bidir
    top := power
    bottom := ground ++ ncs }

/-- Python `round` (banker's rounding, half to even) on a rational. -/
def pyRound (q : ℚ) : ℤ :=
  let f := ⌊q⌋
  let r := q - f
  if r < 1/2 then f
  else if 1/2 < r then f + 1
  else if f % 2 = 0 then f else f + 1

/-- `SymbolPin` from `generator.py`. -/
structure SymbolPin where
  pin : Pin
  x : ℚ := 0
  y : ℚ := 0
  orientation : PinOrientation := .right
  deriving DecidableEq, Repr

/-- `SymbolLayout` from `generator.py`. -/
structure SymbolLayout where
  unit : Nat := 1
  name : String := ""
  width : ℚ := 1016/100
  height : ℚ := 1016/100
  left_pins : List SymbolPin := []
  right_pins : List SymbolPin := []
  top_pins : List SymbolPin := []
  bottom_pins : List SymbolPin := []
  is_power_unit : Bool := false
  deriving DecidableEq, Repr

/-- Place a list of pins along the left or right edge: pin `i` at
`y_start - i * PIN_SPACING` with the given `x` and orientation. -/
def placeVertical (side : List Pin) (x : ℚ) (o : PinOrientation) :
    List SymbolPin :=
  let y_start : ℚ := ((side.length : ℚ) - 1) * pinSpacing / 2
  side.enum.map (fun ip =>
    { pin := ip.2, x := x, y := y_start - (ip.1 : ℚ) * pinSpacing,
      orientation := o })

/-- Place a list of pins along the top or bottom edge: pin `i` at
`x_start + i * PIN_SPACING` with the given `y` and orientation. -/
def placeHorizontal (side : List Pin) (y : ℚ) (o : PinOrientation) :
    List SymbolPin :=
  let x_start : ℚ := -(((side.length : ℚ) - 1) * pinSpacing / 2)
  side.enum.map (fun ip =>
    { pin := ip.2, x := x_start + (ip.1 : ℚ) * pinSpacing, y := y,
      orientation := o })

/-- Body sizing shared by both layout paths (`_layout_single_unit` lines
131-141 and `_layout_unit_pins` lines 257-266): height for the larger
left/right count plus 2 spacing units, width for the larger top/bottom
count plus 4 spacing units, each at least 10.16 mm, rounded to the
2.54 mm grid with Python `round`. -/
def bodySize (maxSide maxTb : Nat) : ℚ × ℚ :=
  let height0 : ℚ := max ((maxSide : ℚ) * pinSpacing + 2 * pinSpacing) (1016/100)
  let width0 : ℚ := max ((maxTb : ℚ) * pinSpacing + 4 * pinSpacing) (1016/100)
  ((pyRound (height0 / pinSpacing) : ℚ) * pinSpacing,
   (pyRound (width0 / pinSpacing) : ℚ) * pinSpacing)

/-- `SymbolGenerator._layout_single_unit`: build the layout record for
one unit (classification, sizing, placement). The Python method appends
the result to `self.layouts`; that append happens in `symbolLayoutPins`
below. -/
def layoutSingleUnit (pins : List Pin) (unit : Nat) (unit_name : String) :
    SymbolLayout :=
  let g := classifyPins pins
  let s := singleUnitSides pins
  let max_side_pins : Nat := max (max s.left.length s.right.length) 1
  let max_tb_pins : Nat := max (max s.top.length s.bottom.length) 1
  let hw := bodySize max_side_pins max_tb_pins
  let height := hw.1
  let width := hw.2
  let is_power :=
    decide (g.power.length + g.ground.length = pins.length ∧ 0 < pins.length)
  { unit := unit
    name := unit_name
    width := width
    height := height
    left_pins := placeVertical s.left (-(width / 2) - pinLength) .right
    right_pins := placeVertical s.right (width / 2 + pinLength) .left
    top_pins := placeHorizontal s.top (height / 2 + pinLength) .down
    bottom_pins := placeHorizontal s.bottom (-(height / 2) - pinLength) .up
    is_power_unit := is_power }

/-! Multi-unit path (`_layout_multi_unit`, `_layout_unit_pins`,
`_sort_with_diff_pairs`). -/

/-- `get_fpga_unit_names` from `fpga_csv_parser.py` (a constant table). -/
def fpgaUnitNames : Nat → Option String
  | 1 => some "Power"
  | 2 => some "Config"
  | 3 => some "JTAG"
  | 4 => some "Bank 0"
  | 5 => some "Bank 1"
  | 6 => some "Bank 2"
  | 7 => some "Bank 3"
  | 8 => some "Bank 4"
  | 9 => some "Bank 5"
  | 10 => some "Bank 6"
  | 11 => some "Bank 7"
  | 12 => some "DPHY0"
  | 13 => some "DPHY1"
  | 14 => some "ADC"
  | 15 => some "SerDes"
  | _ => none

/-- The regex `(.+?)([PN]|[AB])$` of `_sort_with_diff_pairs`, applied to
an (uppercased) name: it matches exactly when the name has at least two
characters and ends in P, N, A or B, and then group 1 is the name
without its last character. -/
def diffPairBase (name : String) : Option String :=
  let cs := name.data
  if 2 ≤ cs.length ∧ cs.getLast? ∈ [some 'P', some 'N', some 'A', some 'B'] then
    some ⟨cs.dropLast⟩
  else
    none

/-- Append `p` to the entry for `base` in an insertion-ordered
association list (Python dict with list values). -/
def addToPairs (base : String) (p : Pin) :
    List (String × List Pin) → List (String × List Pin)
  | [] => [(base, [p])]
  | (b, ps) :: rest =>
    if b == base then (b, ps ++ [p]) :: rest
    else (b, ps) :: addToPairs base p rest

/-- The grouping loop of `_sort_with_diff_pairs`: split the pins into
differential-pair groups (keyed by base name) and singles. -/
def groupDiffPairs : List Pin → List (String × List Pin) × List Pin
  | [] => ([], [])
  | p :: rest =>
    let r := groupDiffPairs rest
    match diffPairBase (strUpper p.name) with
    | some base => (addToPairs base p r.1, r.2)
    | none => (r.1, p :: r.2)

/-- The positive-member-first key of `_sort_with_diff_pairs`: 0 when the
uppercased name ends in P or A, else 1, then the name. -/
def pairMemberLe (p q : Pin) : Bool :=
  let fp : Nat := if (strUpper p.name).endsWith "P" || (strUpper p.name).endsWith "A" then 0 else 1
  let fq : Nat := if (strUpper q.name).endsWith "P" || (strUpper q.name).endsWith "A" then 0 else 1
  decide (fp < fq) || (fp == fq && strLe p.name q.name)

/-- Ordered insert for `pairMemberLe`. -/
def insertPairMember (p : Pin) : List Pin → List Pin
  | [] => [p]
  | q :: rest =>
    if pairMemberLe p q then p :: q :: rest else q :: insertPairMember p rest

/-- Stable sort of one pair group, positive member first. -/
def sortPairMembers : List Pin → List Pin
  | [] => []
  | p :: rest => insertPairMember p (sortPairMembers rest)

/-- `_sort_with_diff_pairs`: pair groups in ascending base-name order,
each group sorted positive-first, then the singles sorted by name. -/
def sortWithDiffPairs (pins : List Pin) : List Pin :=
  let gp := groupDiffPairs pins
  let bases := sortStrs (gp.1.map Prod.fst)
  let pairPart := bases.flatMap (fun b =>
    sortPairMembers ((gp.1.lookup b).getD []))
  pairPart ++ sortPinsByName gp.2

/-- The left/right distribution loop of `_layout_unit_pins` (lines
242-255): names ending P/A or inputs to the left, names ending N/B or
outputs to the right, anything else to whichever side is not longer. -/
def distributeSignals (signal : List Pin) : List Pin × List Pin :=
  signal.foldl (fun lr p =>
    let nameU := strUpper p.name
    if nameU.endsWith "P" || nameU.endsWith "A" ||
        p.electrical_type == .input then
      (lr.1 ++ [p], lr.2)
    else if nameU.endsWith "N" || nameU.endsWith "B" ||
        p.electrical_type == .output then
      (lr.1, lr.2 ++ [p])
    else if lr.1.length ≤ lr.2.length then
      (lr.1 ++ [p], lr.2)
    else
      (lr.1, lr.2 ++ [p])) ([], [])

/-- `SymbolGenerator._layout_unit_pins`: the FPGA-aware per-unit layout
(supply pins top, ground and NC bottom, signals split left/right with
differential pairs kept adjacent). -/
def layoutUnitPins (pins : List Pin) (unit : Nat) (unit_name : String) :
    SymbolLayout :=
  let power := sortPinsByName (pins.filter Pin.is_supply)
  let ground := sortPinsByName (pins.filter Pin.is_ground)
  let ncs := pins.filter Pin.is_nc
  let signal := pins.filter (fun p => !(p.is_supply || p.is_ground || p.is_nc))
  let signalSorted := sortWithDiffPairs signal
  let lr := distributeSignals signalSorted
  let max_side : Nat := max (max lr.1.length lr.2.length) 1
  let max_tb : Nat := max (max power.length (ground.length + ncs.length)) 1
  let hw := bodySize max_side max_tb
  let height := hw.1
  let width := hw.2
  let is_power :=
    decide (signal.length = 0 ∧ (0 < power.length ∨ 0 < ground.length))
  let bottom := ground ++ ncs
  { unit := unit
    name := unit_name
    width := width
    height := height
    left_pins := placeVertical lr.1 (-(width / 2) - pinLength) .right
    right_pins := placeVertical lr.2 (width / 2 + pinLength) .left
    top_pins := placeHorizontal power (height / 2 + pinLength) .down
    bottom_pins := placeHorizontal bottom (-(height / 2) - pinLength) .up
    is_power_unit := is_power }

/-- `SymbolGenerator._layout_multi_unit`: one layout per distinct unit
number present, in ascending order, named from the FPGA table or
`"Unit N"`. -/
def multiUnitLayouts (c : ComponentInfo) (units : List Nat) :
    List SymbolLayout :=
  let sorted_units := units.mergeSort (· ≤ ·)
  (sorted_units.filter (fun u => !(c.pins.filter (fun p => p.unit == u)).isEmpty)).map
    (fun u =>
      layoutUnitPins (c.pins.filter (fun p => p.unit == u)) u
        ((fpgaUnitNames u).getD ("Unit " ++ Nat.repr u)))

/-- `SymbolGenerator.layout_pins`, acting on the generator's mutable
`self.layouts` state. The Python method computes the set of distinct
unit numbers; with at most one distinct unit it runs
`_layout_single_unit`, otherwise `_layout_multi_unit`, and in both
cases the layout methods APPEND to `self.layouts` — nothing clears the
previous contents. -/
def symbolLayoutPins (c : ComponentInfo) (layouts : List SymbolLayout) :
    List SymbolLayout :=
  let units := (c.pins.map Pin.unit).dedup
  if units.length ≤ 1 then
    layouts ++ [layoutSingleUnit c.pins 1 ""]
  else
    layouts ++ multiUnitLayouts c units

/-! ### Footprint data model (`kiforge/core/models/package.py`,
`footprint.py`) -/

/-- `ThermalPad` from `package.py`. -/
structure ThermalPad where
  width : ℚ
  height : ℚ
  paste_coverage : ℚ := 1/2
  via_count_x : Nat := 3
  via_count_y : Nat := 3
  via_drill : ℚ := 3/10
  via_pad_diameter : ℚ := 1/2
  corner_radius : ℚ := 0
  pin_number : String := "EP"
  deriving DecidableEq, Repr

/-- `ThermalPad.total_via_count`. -/
def ThermalPad.total_via_count (t : ThermalPad) : Nat :=
  t.via_count_x * t.via_count_y

/-- The pydantic field constraints of `ThermalPad` (`gt=0` on the
dimensions and via sizes, ranges on the ratios; the via counts are
`ge=0`, automatic for `Nat`), embedded as a validating constructor. -/
def ThermalPad.validate (t : ThermalPad) : Except String ThermalPad :=
  if 0 < t.width ∧ 0 < t.height ∧ 0 < t.via_drill ∧ 0 < t.via_pad_diameter ∧
      0 ≤ t.paste_coverage ∧ t.paste_coverage ≤ 1 ∧ 0 ≤ t.corner_radius then
    .ok t
  else
    .error "ThermalPad validation error"

/-- `PackageInfo` from `package.py` (the fields the claims exercise). -/
structure PackageInfo where
  package_type : PackageType
  package_name : String
  pin_count : Nat
  pitch : ℚ
  body_width : ℚ
  body_length : ℚ
  body_height : ℚ
  lead_width : Option ℚ := none
  lead_length : Option ℚ := none
  lead_span : Option ℚ := none
  thermal_pad : Option ThermalPad := none
  deriving DecidableEq, Repr

/-- `PackageInfo.has_thermal_pad`. -/
def PackageInfo.has_thermal_pad (p : PackageInfo) : Bool :=
  p.thermal_pad.isSome

/-- `PackageInfo.is_quad`. -/
def PackageInfo.is_quad (p : PackageInfo) : Bool :=
  p.package_type ∈ [PackageType.qfp, .lqfp, .tqfp, .vqfp, .qfn, .vqfn, .wqfn]

/-- `PackageInfo.is_dual`. -/
def PackageInfo.is_dual (p : PackageInfo) : Bool :=
  p.package_type ∈ [PackageType.dfn, .soic, .sop, .ssop, .tssop, .msop, .dip]

/-- `PackageInfo.pins_per_side`: for quad packages, the pin count minus
the thermal-pad slot, floor-divided by 4; `None` otherwise. -/
def PackageInfo.pins_per_side (p : PackageInfo) : Option Nat :=
  if p.is_quad then
    some ((if p.has_thermal_pad then p.pin_count - 1 else p.pin_count) / 4)
  else
    none

/-- The pydantic field constraints of `PackageInfo` (`gt=0` on pin
count, pitch and body dimensions; `gt=0` on the optional lead fields
when present), embedded as a validating constructor. -/
def PackageInfo.validate (p : PackageInfo) : Except String PackageInfo :=
  if 0 < p.pin_count ∧ 0 < p.pitch ∧ 0 < p.body_width ∧ 0 < p.body_length ∧
      0 < p.body_height ∧ (∀ w ∈ p.lead_width, 0 < w) ∧
      (∀ w ∈ p.lead_length, 0 < w) ∧ (∀ w ∈ p.lead_span, 0 < w) then
    match p.thermal_pad with
    | none => .ok p
    | some t => do
      let _ ← t.validate
      .ok p
  else
    .error "PackageInfo validation error"

/-- `PadDimensions` from `footprint.py`. -/
structure PadDimensions where
  width : ℚ
  height : ℚ
  shape : PadShape := .roundrect
  corner_ratio : ℚ := 25/100
  deriving DecidableEq, Repr

/-- The pydantic field constraints of `PadDimensions`. -/
def PadDimensions.validate (d : PadDimensions) : Except String PadDimensions :=
  if 0 < d.width ∧ 0 < d.height ∧ 0 ≤ d.corner_ratio ∧ d.corner_ratio ≤ 1/2 then
    .ok d
  else
    .error "PadDimensions validation error"

/-- `FootprintParams` from `footprint.py` (the fields the claims
exercise; the cosmetic margins keep their documented defaults). -/
structure FootprintParams where
  footprint_name : String
  library_name : String := "KiForge"
  description : String := ""
  tags : List String := []
  package : PackageInfo
  pad_size : PadDimensions
  pad_type : PadType := .smd
  pad_center_x : ℚ
  pad_center_y : ℚ
  courtyard_margin : ℚ := 25/100
  courtyard_line_width : ℚ := 5/100
  silkscreen_margin : ℚ := 15/100
  silkscreen_line_width : ℚ := 12/100
  fab_line_width : ℚ := 1/10
  thermal_pad_override : Option ThermalPad := none
  model_3d_path : Option String := none
  deriving DecidableEq, Repr

/-- `FootprintParams.has_thermal_pad`. -/
def FootprintParams.has_thermal_pad (p : FootprintParams) : Bool :=
  p.thermal_pad_override.isSome || p.package.has_thermal_pad

/-- `FootprintParams.thermal_pad` (override wins over the package's). -/
def FootprintParams.thermal_pad (p : FootprintParams) : Option ThermalPad :=
  p.thermal_pad_override.orElse (fun _ => p.package.thermal_pad)

/-! ### Footprint geometry records (`kiforge/core/footprint/generator.py`) -/

/-- `Pad` from `generator.py`. -/
structure Pad where
  number : String
  pad_type : PadType
  shape : PadShape
  x : ℚ
  y : ℚ
  width : ℚ
  height : ℚ
  rot : ℚ := 0
  layers : List String := ["F.Cu", "F.Paste", "F.Mask"]
  corner_ratio : ℚ := 25/100
  drill : Option ℚ := none
  drill_oval : Option (ℚ × ℚ) := none
  property_heatsink : Bool := false
  deriving DecidableEq, Repr

/-- `Line` from `generator.py`. -/
structure Line where
  x1 : ℚ
  y1 : ℚ
  x2 : ℚ
  y2 : ℚ
  layer : String
  width : ℚ
  deriving DecidableEq, Repr

/-- `Circle` from `generator.py`. -/
structure Circle where
  cx : ℚ
  cy : ℚ
  radius : ℚ
  layer : String
  width : ℚ
  fill : Bool := false
  deriving DecidableEq, Repr

/-- `Arc` from `generator.py` (never populated by either variant, but
part of the cleared state). -/
structure Arc where
  start_x : ℚ
  start_y : ℚ
  mid_x : ℚ
  mid_y : ℚ
  end_x : ℚ
  end_y : ℚ
  layer : String
  width : ℚ
  deriving DecidableEq, Repr

/-- `Text` from `generator.py`. -/
structure Text where
  text_type : String
  text : String
  x : ℚ
  y : ℚ
  layer : String
  font_size : ℚ := 1
  font_thickness : ℚ := 15/100
  hide : Bool := false
  deriving DecidableEq, Repr

/-- The transient geometry lists owned by a `FootprintGenerator`
instance (`self.pads`, `self.lines`, `self.circles`, `self.arcs`,
`self.texts`). -/
structure GenState where
  pads : List Pad := []
  lines : List Line := []
  circles : List Circle := []
  arcs : List Arc := []
  texts : List Text := []
  deriving DecidableEq, Repr

/-- The `clear()` calls at the top of `FootprintGenerator.generate`. -/
def clearState (_s : GenState) : GenState := {}

/-! ### QFP pad placement (`kiforge/core/footprint/qfp.py`) -/

/-- Pad `i` of QFP side 1 (left, pins going downward; `pin_number`
starts at 1, so pad `i` carries number `i + 1`). -/
def qfpSide1Pad (params : FootprintParams) (pins_per_side : Nat) (i : Nat) :
    Pad :=
  { number := Nat.repr (i + 1), pad_type := params.pad_type,
    shape := params.pad_size.shape, x := -params.pad_center_x,
    y := -((((pins_per_side : ℚ) - 1) * params.package.pitch) / 2) +
      (i : ℚ) * params.package.pitch,
    width := params.pad_size.width, height := params.pad_size.height,
    corner_ratio := params.pad_size.corner_ratio }

/-- Pad `i` of QFP side 2 (bottom, pins going right; width/height
swapped for the vertical orientation). -/
def qfpSide2Pad (params : FootprintParams) (pins_per_side : Nat) (i : Nat) :
    Pad :=
  { number := Nat.repr (pins_per_side + i + 1), pad_type := params.pad_type,
    shape := params.pad_size.shape,
    x := -((((pins_per_side : ℚ) - 1) * params.package.pitch) / 2) +
      (i : ℚ) * params.package.pitch,
    y := params.pad_center_y,
    width := params.pad_size.height, height := params.pad_size.width,
    corner_ratio := params.pad_size.corner_ratio }

/-- Pad `i` of QFP side 3 (right, pins going upward). -/
def qfpSide3Pad (params : FootprintParams) (pins_per_side : Nat) (i : Nat) :
    Pad :=
  { number := Nat.repr (2 * pins_per_side + i + 1),
    pad_type := params.pad_type, shape := params.pad_size.shape,
    x := params.pad_center_x,
    y := (((pins_per_side : ℚ) - 1) * params.package.pitch) / 2 -
      (i : ℚ) * params.package.pitch,
    width := params.pad_size.width, height := params.pad_size.height,
    corner_ratio := params.pad_size.corner_ratio }

/-- Pad `i` of QFP side 4 (top, pins going left; width/height
swapped). -/
def qfpSide4Pad (params : FootprintParams) (pins_per_side : Nat) (i : Nat) :
    Pad :=
  { number := Nat.repr (3 * pins_per_side + i + 1),
    pad_type := params.pad_type, shape := params.pad_size.shape,
    x := (((pins_per_side : ℚ) - 1) * params.package.pitch) / 2 -
      (i : ℚ) * params.package.pitch,
    y := -params.pad_center_y,
    width := params.pad_size.height, height := params.pad_size.width,
    corner_ratio := params.pad_size.corner_ratio }

/-- `QFPFootprintGenerator.calculate_pads`: four linear pad arrays, one
per side, numbered counter-clockwise from the top of the left side.
Each Python `for i in range(pins_per_side)` loop (with the running
`pin_number` counter starting at 1) is rendered as a map over
`List.range` with the per-side pad builders above; the counter value in
loop `k` at index `i` is `k * pins_per_side + i + 1`, and `array_span`
(`(pins_per_side - 1) * pitch`) is inlined into the builders. -/
def qfpCalculatePads (params : FootprintParams) : Except String (List Pad) :=
  match params.package.pins_per_side with
  | none => .error "Package must have pins_per_side for QFP"
  | some pins_per_side =>
    .ok ((List.range pins_per_side).map (qfpSide1Pad params pins_per_side) ++
      ((List.range pins_per_side).map (qfpSide2Pad params pins_per_side) ++
      ((List.range pins_per_side).map (qfpSide3Pad params pins_per_side) ++
      (List.range pins_per_side).map (qfpSide4Pad params pins_per_side))))

/-- Minimum of a nonempty rational list (Python `min`). -/
def qMin : List ℚ → ℚ
  | [] => 0
  | x :: xs => xs.foldl min x

/-- Maximum of a nonempty rational list (Python `max`). -/
def qMax : List ℚ → ℚ
  | [] => 0
  | x :: xs => xs.foldl max x

/-- Python `round(v, 2)` (half to even at two decimals). -/
def pyRound2 (q : ℚ) : ℚ :=
  (pyRound (q * 100) : ℚ) / 100

/-- `QFPFootprintGenerator.calculate_silkscreen`: body outline segments
with gaps for the pad arrays, plus the filled pin-1 marker dot. Returns
the appended lines and circles in program order. -/
def qfpCalculateSilkscreen (params : FootprintParams) :
    List Line × List Circle :=
  let pkg := params.package
  let pad_size := params.pad_size
  let margin := params.silkscreen_margin
  let width := params.silkscreen_line_width
  let body_half_w := pkg.body_width / 2
  let body_half_h := pkg.body_length / 2
  let pad_x := params.pad_center_x
  let pad_y := params.pad_center_y
  let pad_edge_x := pad_x - pad_size.width / 2 - margin
  let pad_edge_y := pad_y - pad_size.height / 2 - margin
  -- Python `pkg.pins_per_side or 1` is falsy-or: both `None` and `0`
  -- fall back to 1.
  let n0 := pkg.pins_per_side.getD 1
  let pins_per_side := if n0 = 0 then 1 else n0
  let pitch := pkg.pitch
  let array_half :=
    ((pins_per_side : ℚ) - 1) * pitch / 2 + pad_size.height / 2 + margin
  let seg (c : Prop) [Decidable c] (l : Line) : List Line :=
    if c then [l] else []
  let lines :=
    seg (pad_edge_x < body_half_w)
      ⟨-body_half_w, -body_half_h, -pad_edge_x, -body_half_h, "F.SilkS", width⟩ ++
    seg (pad_edge_x < body_half_w)
      ⟨pad_edge_x, -body_half_h, body_half_w, -body_half_h, "F.SilkS", width⟩ ++
    seg (pad_edge_x < body_half_w)
      ⟨-body_half_w, body_half_h, -pad_edge_x, body_half_h, "F.SilkS", width⟩ ++
    seg (pad_edge_x < body_half_w)
      ⟨pad_edge_x, body_half_h, body_half_w, body_half_h, "F.SilkS", width⟩ ++
    seg (pad_edge_y < body_half_h)
      ⟨-body_half_w, -body_half_h, -body_half_w, -pad_edge_y, "F.SilkS", width⟩ ++
    seg (pad_edge_y < body_half_h)
      ⟨-body_half_w, pad_edge_y, -body_half_w, body_half_h, "F.SilkS", width⟩ ++
    seg (pad_edge_y < body_half_h)
      ⟨body_half_w, -body_half_h, body_half_w, -pad_edge_y, "F.SilkS", width⟩ ++
    seg (pad_edge_y < body_half_h)
      ⟨body_half_w, pad_edge_y, body_half_w, body_half_h, "F.SilkS", width⟩
  let pin1_marker_x := -pad_x - pad_size.width / 2 - 1/2
  let pin1_marker_y := -array_half
  (lines, [⟨pin1_marker_x, pin1_marker_y, 1/5, "F.SilkS", width, true⟩])

/-! ### QFN pad placement (`kiforge/core/footprint/qfn.py`) -/

/-- `QFNFootprintGenerator._calculate_quad_pads`. -/
def qfnCalculateQuadPads (params : FootprintParams) : List Pad :=
  let pkg := params.package
  let pad_size := params.pad_size
  let total_pins :=
    if pkg.has_thermal_pad then pkg.pin_count - 1 else pkg.pin_count
  let pins_per_side := total_pins / 4
  let pitch := pkg.pitch
  let array_span : ℚ := ((pins_per_side : ℚ) - 1) * pitch
  let pad_x := params.pad_center_x
  let pad_y := params.pad_center_y
  let start_pos : ℚ := -(array_span / 2)
  let side1 := (List.range pins_per_side).map (fun i =>
    ({ number := Nat.repr (i + 1), pad_type := params.pad_type,
       shape := pad_size.shape, x := -pad_x,
       y := start_pos + (i : ℚ) * pitch,
       width := pad_size.width, height := pad_size.height,
       corner_ratio := pad_size.corner_ratio } : Pad))
  let side2 := (List.range pins_per_side).map (fun i =>
    ({ number := Nat.repr (pins_per_side + i + 1),
       pad_type := params.pad_type, shape := pad_size.shape,
       x := start_pos + (i : ℚ) * pitch, y := pad_y,
       width := pad_size.height, height := pad_size.width,
       corner_ratio := pad_size.corner_ratio } : Pad))
  let side3 := (List.range pins_per_side).map (fun i =>
    ({ number := Nat.repr (2 * pins_per_side + i + 1),
       pad_type := params.pad_type, shape := pad_size.shape,
       x := pad_x, y := start_pos + ((pins_per_side - 1 - i : Nat) : ℚ) * pitch,
       width := pad_size.width, height := pad_size.height,
       corner_ratio := pad_size.corner_ratio } : Pad))
  let side4 := (List.range pins_per_side).map (fun i =>
    ({ number := Nat.repr (3 * pins_per_side + i + 1),
       pad_type := params.pad_type, shape := pad_size.shape,
       x := start_pos + ((pins_per_side - 1 - i : Nat) : ℚ) * pitch, y := -pad_y,
       width := pad_size.height, height := pad_size.width,
       corner_ratio := pad_size.corner_ratio } : Pad))
  side1 ++ side2 ++ side3 ++ side4

/-- `QFNFootprintGenerator._calculate_dual_pads`. -/
def qfnCalculateDualPads (params : FootprintParams) : List Pad :=
  let pkg := params.package
  let pad_size := params.pad_size
  let total_pins :=
    if pkg.has_thermal_pad then pkg.pin_count - 1 else pkg.pin_count
  let pins_per_side := total_pins / 2
  let pitch := pkg.pitch
  let array_span : ℚ := ((pins_per_side : ℚ) - 1) * pitch
  let pad_x := params.pad_center_x
  let start_y : ℚ := -(array_span / 2)
  let side1 := (List.range pins_per_side).map (fun i =>
    ({ number := Nat.repr (i + 1), pad_type := params.pad_type,
       shape := pad_size.shape, x := -pad_x,
       y := start_y + (i : ℚ) * pitch,
       width := pad_size.width, height := pad_size.height,
       corner_ratio := pad_size.corner_ratio } : Pad))
  let side2 := (List.range pins_per_side).map (fun i =>
    ({ number := Nat.repr (pins_per_side + i + 1),
       pad_type := params.pad_type, shape := pad_size.shape,
       x := pad_x, y := start_y + ((pins_per_side - 1 - i : Nat) : ℚ) * pitch,
       width := pad_size.width, height := pad_size.height,
       corner_ratio := pad_size.corner_ratio } : Pad))
  side1 ++ side2

/-- `QFNFootprintGenerator.calculate_pads`: dual or quad dispatch on
`pkg.is_dual`. -/
def qfnCalculatePads (params : FootprintParams) : Except String (List Pad) :=
  if params.package.is_dual then .ok (qfnCalculateDualPads params)
  else .ok (qfnCalculateQuadPads params)

/-- `QFNFootprintGenerator.calculate_silkscreen`: corner marks plus the
filled pin-1 marker dot. -/
def qfnCalculateSilkscreen (params : FootprintParams) :
    List Line × List Circle :=
  let pkg := params.package
  let pad_size := params.pad_size
  let margin := params.silkscreen_margin
  let width := params.silkscreen_line_width
  let body_half_w := pkg.body_width / 2
  let body_half_h := pkg.body_length / 2
  let n0 := (pkg.pins_per_side.getD (pkg.pin_count / 4))
  let pins_per_side := if n0 = 0 then pkg.pin_count / 4 else n0
  let pitch := pkg.pitch
  let array_half :=
    ((pins_per_side : ℚ) - 1) * pitch / 2 + pad_size.height / 2 + margin
  let corner_len := min 1 (body_half_w * 3/10)
  let lines : List Line :=
    [⟨-body_half_w, -body_half_h + corner_len, -body_half_w, -body_half_h, "F.SilkS", width⟩,
     ⟨-body_half_w, -body_half_h, -body_half_w + corner_len, -body_half_h, "F.SilkS", width⟩,
     ⟨body_half_w - corner_len, -body_half_h, body_half_w, -body_half_h, "F.SilkS", width⟩,
     ⟨body_half_w, -body_half_h, body_half_w, -body_half_h + corner_len, "F.SilkS", width⟩,
     ⟨body_half_w, body_half_h - corner_len, body_half_w, body_half_h, "F.SilkS", width⟩,
     ⟨body_half_w, body_half_h, body_half_w - corner_len, body_half_h, "F.SilkS", width⟩,
     ⟨-body_half_w + corner_len, body_half_h, -body_half_w, body_half_h, "F.SilkS", width⟩,
     ⟨-body_half_w, body_half_h, -body_half_w, body_half_h - corner_len, "F.SilkS", width⟩]
  let marker_x := -body_half_w - 1/2
  let marker_y := -array_half
  (lines, [⟨marker_x, marker_y, 1/5, "F.SilkS", width, true⟩])

/-! ### Shared pipeline steps (`generator.py`) -/

/-- `FootprintGenerator.calculate_courtyard`: tight bounding box of all
pads, expanded by the courtyard margin, each coordinate rounded with
Python `round(v, 2)`. -/
def courtyardLines (params : FootprintParams) (pads : List Pad) : List Line :=
  match pads with
  | [] => []
  | _ :: _ =>
    let min_x0 := qMin (pads.map (fun p => p.x - p.width / 2))
    let max_x0 := qMax (pads.map (fun p => p.x + p.width / 2))
    let min_y0 := qMin (pads.map (fun p => p.y - p.height / 2))
    let max_y0 := qMax (pads.map (fun p => p.y + p.height / 2))
    let margin := params.courtyard_margin
    let width := params.courtyard_line_width
    let min_x := pyRound2 (min_x0 - margin)
    let max_x := pyRound2 (max_x0 + margin)
    let min_y := pyRound2 (min_y0 - margin)
    let max_y := pyRound2 (max_y0 + margin)
    [⟨min_x, min_y, max_x, min_y, "F.CrtYd", width⟩,
     ⟨max_x, min_y, max_x, max_y, "F.CrtYd", width⟩,
     ⟨max_x, max_y, min_x, max_y, "F.CrtYd", width⟩,
     ⟨min_x, max_y, min_x, min_y, "F.CrtYd", width⟩]

/-- `FootprintGenerator.calculate_fab_layer`: body rectangle with the
pin-1 chamfer, chamfer length `min(1.0, 0.2 * half_w, 0.2 * half_h)`. -/
def fabLines (params : FootprintParams) : List Line :=
  let pkg := params.package
  let width := params.fab_line_width
  let half_w := pkg.body_width / 2
  let half_h := pkg.body_length / 2
  let chamfer := min (min 1 (half_w * 2/10)) (half_h * 2/10)
  [⟨-half_w + chamfer, -half_h, half_w, -half_h, "F.Fab", width⟩,
   ⟨half_w, -half_h, half_w, half_h, "F.Fab", width⟩,
   ⟨half_w, half_h, -half_w, half_h, "F.Fab", width⟩,
   ⟨-half_w, half_h, -half_w, -half_h + chamfer, "F.Fab", width⟩,
   ⟨-half_w, -half_h + chamfer, -half_w + chamfer, -half_h, "F.Fab", width⟩]

/-- `FootprintGenerator.add_reference_and_value`: reference 2 mm above
the body on the silk layer, value 2 mm below on the fab layer. -/
def referenceAndValue (params : FootprintParams) : List Text :=
  let pkg := params.package
  let ref_y := -(pkg.body_length / 2 + 2)
  let val_y := pkg.body_length / 2 + 2
  [{ text_type := "reference", text := "REF**", x := 0, y := ref_y,
     layer := "F.SilkS" },
   { text_type := "value", text := params.footprint_name, x := 0, y := val_y,
     layer := "F.Fab" }]

/-- `FootprintGenerator.add_thermal_pad`: the main exposed pad (SMD
rectangle at the origin, no paste layer) followed by the thermal via
grid (through-hole circles, heatsink property, spaced
`width/(count+1)` per axis starting one spacing unit inside each
edge). -/
def addThermalPad (thermal : ThermalPad) : List Pad :=
  let mainPad : Pad :=
    { number := thermal.pin_number, pad_type := .smd, shape := .rectangle,
      x := 0, y := 0, width := thermal.width, height := thermal.height,
      layers := ["F.Cu", "F.Mask"] }
  let vias :=
    if 0 < thermal.total_via_count then
      let via_spacing_x := thermal.width / ((thermal.via_count_x : ℚ) + 1)
      let via_spacing_y := thermal.height / ((thermal.via_count_y : ℚ) + 1)
      let start_x := -(thermal.width / 2) + via_spacing_x
      let start_y := -(thermal.height / 2) + via_spacing_y
      (List.range thermal.via_count_x).flatMap (fun i : Nat =>
        (List.range thermal.via_count_y).map (fun j : Nat =>
          ({ number := thermal.pin_number, pad_type := .thru_hole,
             shape := .circle,
             x := start_x + (i : ℚ) * via_spacing_x,
             y := start_y + (j : ℚ) * via_spacing_y,
             width := thermal.via_pad_diameter,
             height := thermal.via_pad_diameter,
             drill := some thermal.via_drill,
             layers := ["*.Cu"],
             property_heatsink := true } : Pad)))
    else []
  mainPad :: vias

/-! ### S-expression serialization (`generator.py`) -/

/-- Zero-pad a numeral string on the left to the given width. -/
def natPad (w : Nat) (n : Nat) : String :=
  let s := Nat.repr n
  (⟨List.replicate (w - s.length) '0'⟩ : String) ++ s

/-- Fixed-point decimal rendering of a rational with `dec` fraction
digits, used for the Python format specifier `:.4f`. Python formats the
nearest binary float; every claim-relevant value is an exact decimal,
where the two agree, and no claim inspects these digit strings. -/
def fmtFixed (dec : Nat) (q : ℚ) : String :=
  let scaled : ℤ := ⌊q * ((10 : ℚ) ^ dec) + 1/2⌋
  let a := scaled.natAbs
  (if scaled < 0 then "-" else "") ++ Nat.repr (a / 10 ^ dec) ++ "." ++
    natPad dec (a % 10 ^ dec)

/-- Four-decimal rendering (`f"{v:.4f}"`). -/
def fmt4 (q : ℚ) : String := fmtFixed 4 q

/-- Plain rendering of a rational (`f"{v}"` on a float); abstracted as
four-decimal rendering, see `fmtFixed`. -/
def fmtPlain (q : ℚ) : String := fmtFixed 4 q

/-- Python `"\n".join(lines)`. -/
def joinLines : List String → String
  | [] => ""
  | [x] => x
  | x :: y :: rest => x ++ "\n" ++ joinLines (y :: rest)

/-- Python `" ".join(parts)`. -/
def joinSpaced : List String → String
  | [] => ""
  | [x] => x
  | x :: y :: rest => x ++ " " ++ joinSpaced (y :: rest)

/-- The heatsink marker line of `_format_pad`. -/
def heatsinkMarker : String := "    (property pad_prop_heatsink)"

/-- `FootprintGenerator._format_pad`, as the list of parts the Python
code assembles before joining them with newlines. `u` is the freshly
generated uuid string for this element. -/
def formatPadParts (pad : Pad) (u : String) : List String :=
  ["  (pad \"" ++ pad.number ++ "\" " ++ pad.pad_type.value ++ " " ++
    pad.shape.value] ++
  [if pad.rot ≠ 0 then
    "    (at " ++ fmt4 pad.x ++ " " ++ fmt4 pad.y ++ " " ++ fmtPlain pad.rot ++ ")"
   else
    "    (at " ++ fmt4 pad.x ++ " " ++ fmt4 pad.y ++ ")"] ++
  ["    (size " ++ fmt4 pad.width ++ " " ++ fmt4 pad.height ++ ")"] ++
  (match pad.drill with
   | none => []
   | some d =>
     match pad.drill_oval with
     | some wh =>
       ["    (drill oval " ++ fmt4 wh.1 ++ " " ++ fmt4 wh.2 ++ ")"]
     | none => ["    (drill " ++ fmt4 d ++ ")"]) ++
  ["    (layers " ++
    joinSpaced (pad.layers.map (fun l => "\"" ++ l ++ "\"")) ++ ")"] ++
  (if pad.shape = .roundrect then
    ["    (roundrect_rratio " ++ fmtPlain pad.corner_ratio ++ ")"]
   else []) ++
  (if pad.property_heatsink then [heatsinkMarker] else []) ++
  ["    (uuid " ++ u ++ ")", "  )"]

/-- `FootprintGenerator._format_pad` (joined). -/
def formatPad (pad : Pad) (u : String) : String :=
  joinLines (formatPadParts pad u)

/-- `FootprintGenerator._format_line`. -/
def formatLine (l : Line) (u : String) : String :=
  "  (fp_line\n" ++
  "    (start " ++ fmt4 l.x1 ++ " " ++ fmt4 l.y1 ++ ")\n" ++
  "    (end " ++ fmt4 l.x2 ++ " " ++ fmt4 l.y2 ++ ")\n" ++
  "    (stroke (width " ++ fmtPlain l.width ++ ") (type solid))\n" ++
  "    (layer \"" ++ l.layer ++ "\")\n" ++
  "    (uuid " ++ u ++ ")\n" ++
  "  )"

/-- `FootprintGenerator._format_circle`. -/
def formatCircle (c : Circle) (u : String) : String :=
  "  (fp_circle\n" ++
  "    (center " ++ fmt4 c.cx ++ " " ++ fmt4 c.cy ++ ")\n" ++
  "    (end " ++ fmt4 (c.cx + c.radius) ++ " " ++ fmt4 c.cy ++ ")\n" ++
  "    (stroke (width " ++ fmtPlain c.width ++ ") (type solid))\n" ++
  "    (fill " ++ (if c.fill then "solid" else "none") ++ ")\n" ++
  "    (layer \"" ++ c.layer ++ "\")\n" ++
  "    (uuid " ++ u ++ ")\n" ++
  "  )"

/-- `FootprintGenerator._format_arc`. -/
def formatArc (a : Arc) (u : String) : String :=
  "  (fp_arc\n" ++
  "    (start " ++ fmt4 a.start_x ++ " " ++ fmt4 a.start_y ++ ")\n" ++
  "    (mid " ++ fmt4 a.mid_x ++ " " ++ fmt4 a.mid_y ++ ")\n" ++
  "    (end " ++ fmt4 a.end_x ++ " " ++ fmt4 a.end_y ++ ")\n" ++
  "    (stroke (width " ++ fmtPlain a.width ++ ") (type solid))\n" ++
  "    (layer \"" ++ a.layer ++ "\")\n" ++
  "    (uuid " ++ u ++ ")\n" ++
  "  )"

/-- `FootprintGenerator._format_text`. -/
def formatText (t : Text) (u : String) : String :=
  "  (fp_text " ++ t.text_type ++ " \"" ++ t.text ++ "\"\n" ++
  "    (at " ++ fmt4 t.x ++ " " ++ fmt4 t.y ++ ")\n" ++
  "    (layer \"" ++ t.layer ++ "\"" ++ (if t.hide then " hide" else "") ++ ")\n" ++
  "    (effects\n" ++
  "      (font\n" ++
  "        (size " ++ fmtPlain t.font_size ++ " " ++ fmtPlain t.font_size ++ ")\n" ++
  "        (thickness " ++ fmtPlain t.font_thickness ++ ")\n" ++
  "      )\n" ++
  "    )\n" ++
  "    (uuid " ++ u ++ ")\n" ++
  "  )"

/-- Format a list of elements, feeding each one the next uuid from the
supply starting at index `k` (each serialized element consumes exactly
one fresh identifier, in emission order). -/
def withUuids (f : α → String → String) (uuids : Nat → String) (k : Nat)
    (xs : List α) : List String :=
  xs.enum.map (fun ia => f ia.2 (uuids (k + ia.1)))

/-- `FootprintGenerator._build_sexpr`: header block, description/tags,
attribute, then texts, lines, circles, arcs, pads, the optional 3D
model block, and the closing delimiter, joined with newlines. `ts` is
the `datetime.now` date string; `uuids` is the fresh-identifier supply
(the model triples keep their defaults, which no claim touches). -/
def buildSexpr (params : FootprintParams) (st : GenState) (ts : String)
    (uuids : Nat → String) : String :=
  let header :=
    ["(footprint \"" ++ params.footprint_name ++ "\"",
     "  (version 20241229)",
     "  (generator \"kiforge\")",
     "  (generator_version \"" ++ ts ++ "\")",
     "  (layer \"F.Cu\")"] ++
    (if params.description ≠ "" then
      ["  (descr \"" ++ params.description ++ "\")"] else []) ++
    (if params.tags ≠ [] then
      ["  (tags \"" ++ joinSpaced params.tags ++ "\")"] else []) ++
    (if params.pad_type = .smd then ["  (attr smd)"]
     else if params.pad_type = .thru_hole then ["  (attr through_hole)"]
     else [])
  let nT := st.texts.length
  let nL := st.lines.length
  let nC := st.circles.length
  let nA := st.arcs.length
  let elements :=
    withUuids formatText uuids 0 st.texts ++
    withUuids formatLine uuids nT st.lines ++
    withUuids formatCircle uuids (nT + nL) st.circles ++
    withUuids formatArc uuids (nT + nL + nC) st.arcs ++
    withUuids formatPad uuids (nT + nL + nC + nA) st.pads
  let model :=
    match params.model_3d_path with
    | none => []
    | some p =>
      ["  (model \"" ++ p ++ "\"\n" ++
       "    (offset (xyz 0.0 0.0 0.0))\n" ++
       "    (scale (xyz 1.0 1.0 1.0))\n" ++
       "    (rotate (xyz 0.0 0.0 0.0))\n" ++
       "  )"]
  joinLines (header ++ elements ++ model ++ [")"])

/-- The two concrete footprint generator classes. -/
inductive FootprintVariant where
  | qfp
  | qfn
  deriving DecidableEq, Repr

/-- Dynamic dispatch of the abstract `calculate_pads`. -/
def variantCalculatePads :
    FootprintVariant → FootprintParams → Except String (List Pad)
  | .qfp => qfpCalculatePads
  | .qfn => qfnCalculatePads

/-- Dynamic dispatch of the overridden `calculate_silkscreen`. -/
def variantSilkscreen :
    FootprintVariant → FootprintParams → List Line × List Circle
  | .qfp => qfpCalculateSilkscreen
  | .qfn => qfnCalculateSilkscreen

/-- `FootprintGenerator.generate`, acting on the instance's transient
geometry state `prior`: clear all five geometry lists, recompute pads,
silkscreen, courtyard, fabrication outline and texts, append the
thermal pad when configured, and serialize. Returns the new instance
state together with the output text. -/
def footprintGenerate (v : FootprintVariant) (params : FootprintParams)
    (prior : GenState) (ts : String) (uuids : Nat → String) :
    Except String (GenState × String) :=
  let s0 := clearState prior
  match variantCalculatePads v params with
  | .error e => .error e
  | .ok newPads =>
    let pads := s0.pads ++ newPads
    let silk := variantSilkscreen v params
    let lines1 := s0.lines ++ silk.1
    let circles := s0.circles ++ silk.2
    let lines2 := lines1 ++ courtyardLines params pads
    let lines3 := lines2 ++ fabLines params
    let texts := s0.texts ++ referenceAndValue params
    let thermalPads :=
      match params.thermal_pad with
      | some t => if params.has_thermal_pad then addThermalPad t else []
      | none => []
    let st : GenState :=
      { pads := pads ++ thermalPads, lines := lines3, circles := circles,
        arcs := s0.arcs, texts := texts }
    .ok (st, buildSexpr params st ts uuids)

/-! ### Convenience entry points (`qfp.py`, `qfn.py`) -/

/-- The parameter-construction prefix of `create_qfp_footprint` (the
function body up to `QFPFootprintGenerator(params)`), factored out of
`createQfpFootprint`: validate divisibility by 4 first, then build the
package, pad dimensions and parameters. -/
def createQfpFootprintParams (pins : Nat)
    (pitch body_width body_length lead_span : ℚ)
    (body_height : ℚ) (lead_width : Option ℚ) (variant : String) :
    Except String FootprintParams :=
  if pins % 4 ≠ 0 then .error "QFP pin count must be divisible by 4"
  else
    let lw := lead_width.getD (pitch * (6/10))
    let vU := strUpper variant
    let pkg_type :=
      if vU = "LQFP" then PackageType.lqfp
      else if vU = "TQFP" then PackageType.tqfp
      else if vU = "VQFP" then PackageType.vqfp
      else if vU = "QFP" then PackageType.qfp
      else PackageType.lqfp
    do
      let package ← PackageInfo.validate
        { package_type := pkg_type,
          package_name := variant ++ "-" ++ Nat.repr pins,
          pin_count := pins, pitch := pitch, body_width := body_width,
          body_length := body_length, body_height := body_height,
          lead_width := some lw, lead_span := some lead_span }
      let pad_length := (lead_span - body_width) / 2 + 1/2
      let pad_width := pitch * (55/100)
      let pad_size ← PadDimensions.validate
        { width := pad_length, height := pad_width, corner_ratio := 25/100 }
      let pad_center := body_width / 2 + pad_length / 2
      let fp_name := variant ++ "-" ++ Nat.repr pins ++ "_" ++
        fmtPlain body_width ++ "x" ++ fmtPlain body_length ++ "mm_P" ++
        fmtPlain pitch ++ "mm"
      let params : FootprintParams :=
        { footprint_name := fp_name,
          description := variant ++ ", " ++ Nat.repr pins ++ " Pin, " ++
            fmtPlain body_width ++ "x" ++ fmtPlain body_length ++
            "mm body, " ++ fmtPlain pitch ++ "mm pitch",
          tags := [variant, "QFP", Nat.repr pins ++ "-pin"],
          package := package, pad_size := pad_size,
          pad_center_x := pad_center, pad_center_y := pad_center }
      pure params

/-- `create_qfp_footprint`: build the validated parameters (validating
pin-count divisibility before anything else), then run the QFP
generator on a fresh instance. -/
def createQfpFootprint (pins : Nat) (pitch body_width body_length lead_span : ℚ)
    (body_height : ℚ) (lead_width : Option ℚ) (variant : String)
    (ts : String) (uuids : Nat → String) : Except String String :=
  match createQfpFootprintParams pins pitch body_width body_length
      lead_span body_height lead_width variant with
  | .error e => .error e
  | .ok params =>
    match footprintGenerate .qfp params {} ts uuids with
    | .error e => .error e
    | .ok r => .ok r.2

/-- The default terminal width `pitch * 0.5` of `create_qfn_footprint`. -/
def qfnDefaultTerminalWidth (pitch : ℚ) : ℚ := pitch * (5/10)

/-- The default thermal-pad size `min(body_width, body_length) * 0.6`
of `create_qfn_footprint`. -/
def qfnDefaultThermalPadSize (bw bl : ℚ) : ℚ := min bw bl * (6/10)

/-- The pad center offset `body_width/2 - terminal_length/2 + 0.15` of
`create_qfn_footprint`. -/
def qfnPadCenter (bw tl : ℚ) : ℚ := bw / 2 - tl / 2 + 15/100

/-- The parameter-construction prefix of `create_qfn_footprint` (the
function body up to `QFNFootprintGenerator(params)`), factored out of
`createQfnFootprint`: default the optional arguments, validate
pin-count divisibility for the variant, then build the thermal pad,
package and parameters. -/
def createQfnFootprintParams (pins : Nat) (pitch body_width : ℚ)
    (body_length : Option ℚ) (body_height : ℚ)
    (terminal_length terminal_width thermal_pad_size : Option ℚ)
    (variant : String) : Except String FootprintParams :=
  let bl := body_length.getD body_width
  let tl := terminal_length.getD (4/10)
  let tw := terminal_width.getD (qfnDefaultTerminalWidth pitch)
  let tps := thermal_pad_size.getD (qfnDefaultThermalPadSize body_width bl)
  let vU := strUpper variant
  let mk : PackageType → Except String FootprintParams := fun pkg_type => do
    let thermal ← ThermalPad.validate
      { width := tps, height := tps, via_count_x := 3, via_count_y := 3,
        via_drill := 3/10, via_pad_diameter := 1/2, pin_number := "EP" }
    let package ← PackageInfo.validate
      { package_type := pkg_type,
        package_name := vU ++ "-" ++ Nat.repr pins,
        pin_count := pins + 1, pitch := pitch, body_width := body_width,
        body_length := bl, body_height := body_height,
        thermal_pad := some thermal }
    let pad_length := tl + 3/10
    let pad_size ← PadDimensions.validate
      { width := pad_length, height := tw, shape := .roundrect,
        corner_ratio := 25/100 }
    let pad_center := qfnPadCenter body_width tl
    let fp_name := vU ++ "-" ++ Nat.repr pins ++ "-1EP_" ++
      fmtPlain body_width ++ "x" ++ fmtPlain bl ++ "mm_P" ++
      fmtPlain pitch ++ "mm_EP" ++ fmtPlain tps ++ "x" ++ fmtPlain tps ++ "mm"
    let params : FootprintParams :=
      { footprint_name := fp_name,
        description := vU ++ ", " ++ Nat.repr pins ++ " Pin, " ++
          fmtPlain body_width ++ "x" ++ fmtPlain bl ++ "mm body, " ++
          fmtPlain pitch ++ "mm pitch, " ++ fmtPlain tps ++
          "mm exposed pad",
        tags := [vU, "QFN", "DFN", Nat.repr pins ++ "-pin", "EP"],
        package := package, pad_size := pad_size,
        pad_center_x := pad_center, pad_center_y := pad_center }
    pure params
  if vU = "DFN" then
    if pins % 2 ≠ 0 then .error "DFN pin count must be divisible by 2"
    else mk .dfn
  else if pins % 4 ≠ 0 then .error "QFN pin count must be divisible by 4"
  else if vU = "VQFN" then mk .vqfn
  else if vU = "WQFN" then mk .wqfn
  else mk .qfn

/-- `create_qfn_footprint`: build the validated parameters, then run
the QFN generator on a fresh instance. -/
def createQfnFootprint (pins : Nat) (pitch body_width : ℚ)
    (body_length : Option ℚ) (body_height : ℚ)
    (terminal_length terminal_width thermal_pad_size : Option ℚ)
    (variant : String) (ts : String) (uuids : Nat → String) :
    Except String String :=
  match createQfnFootprintParams pins pitch body_width body_length
      body_height terminal_length terminal_width thermal_pad_size variant with
  | .error e => .error e
  | .ok params =>
    match footprintGenerate .qfn params {} ts uuids with
    | .error e => .error e
    | .ok r => .ok r.2

/-! ### Auxiliary definitions used by the statements below -/

/-- A pin list is sorted by the `(name, number)` key when every adjacent
pair is ordered by `pinKeyLe`. -/
def isSortedByKey : List Pin → Bool
  | [] => true
  | [_] => true
  | p :: q :: rest => pinKeyLe p q && isSortedByKey (q :: rest)

/-- The `k`-th block of `n` consecutive pads of a pad list (side `k` of
a quad footprint). -/
def sideBlock (L : List Pad) (k n : Nat) : List Pad :=
  (L.drop (k * n)).take n

/-- Arithmetic progression `start, start+step, …` of length `n` — the
coordinates of a pad array with pitch `step`. -/
def apQ (start step : ℚ) (n : Nat) : List ℚ :=
  (List.range n).map (fun i : Nat => start + (i : ℚ) * step)

/-- A one-pin single-unit component (concrete fixture). -/
def onePinComponent : ComponentInfo :=
  { name := "ONE", pins := [{ number := "1", name := "SIG",
                              electrical_type := .input }] }

/-- Two pins whose categories interleave against the sort key: an input
named `Z` and a passive (other-typed) pin named `A` (concrete fixture). -/
def mixedLeftPins : List Pin :=
  [{ number := "1", name := "Z", electrical_type := .input },
   { number := "2", name := "A", electrical_type := .passive }]

/-- The standard LQFP-48 test package (7×7 mm body, 0.5 mm pitch). -/
def lqfp48Package : PackageInfo :=
  { package_type := .lqfp, package_name := "LQFP-48", pin_count := 48,
    pitch := 1/2, body_width := 7, body_length := 7, body_height := 14/10,
    lead_span := some 9 }

/-- Footprint parameters for the LQFP-48 package (pad centers at
4.25 mm, 1.5×0.28 mm pads). -/
def lqfp48Params : FootprintParams :=
  { footprint_name := "LQFP-48_7x7mm_P0.5mm", package := lqfp48Package,
    pad_size := { width := 3/2, height := 28/100, corner_ratio := 25/100 },
    pad_center_x := 425/100, pad_center_y := 425/100 }

/-- A 3×3 mm thermal pad with the default 3×3 via grid. -/
def exampleThermal : ThermalPad := { width := 3, height := 3 }

/-- A QFN-32 package with the thermal pad (pin count 33 includes the
thermal slot). -/
def qfn32Package : PackageInfo :=
  { package_type := .qfn, package_name := "QFN-32", pin_count := 33,
    pitch := 1/2, body_width := 5, body_length := 5, body_height := 9/10,
    thermal_pad := some exampleThermal }

/-- Footprint parameters for the QFN-32 package. -/
def qfn32Params : FootprintParams :=
  { footprint_name := "QFN-32_5x5mm", package := qfn32Package,
    pad_size := { width := 7/10, height := 1/4 },
    pad_center_x := 5/2, pad_center_y := 5/2 }

/-- A deterministic stand-in for the uuid supply. -/
def exampleUuids : Nat → String := fun i => "uuid-" ++ Nat.repr i

/-- Two pins sharing the number string `"1"` (concrete fixture). -/
def dupPins : List Pin :=
  [{ number := "1", name := "A" }, { number := "1", name := "B" }]

/-- A pin whose name matches both the ground and the supply pattern
tables (`vddgnd` contains both `vdd` and `gnd`). -/
def bothPatternsPin : Pin := { number := "9", name := "VDDGND" }

/-- Four bidirectional pins (concrete fixture). -/
def bidirPins : List Pin :=
  [{ number := "1", name := "IO1", electrical_type := .bidirectional },
   { number := "2", name := "IO2", electrical_type := .bidirectional },
   { number := "3", name := "IO3", electrical_type := .bidirectional },
   { number := "4", name := "IO4", electrical_type := .bidirectional }]

/-! ## Theorems -/

/-- The generation pipeline starts by clearing the instance state, so
its result ignores the prior state entirely. -/
theorem footprintGenerate_state_blind (v : FootprintVariant)
    (params : FootprintParams) (s1 s2 : GenState) (ts : String)
    (uuids : Nat → String) :
    footprintGenerate v params s1 ts uuids =
      footprintGenerate v params s2 ts uuids := rfl

/-- C4: `FootprintGenerator.generate` clears every transient geometry
list before recomputing, so its result (new instance state and output
text) does not depend on the state left by any previous call: two runs
from any two prior states agree, and in particular a second call
starting from the state of a successful first call returns exactly the
first call's state and text. The output differs across real calls only
through the timestamp `ts` and the fresh-identifier supply `uuids`,
which are the explicit nondeterministic inputs here — for equal values
of those the text is identical, which is the claim's "textually
identical except uuids and timestamp". -/
theorem generate_clears_state_and_is_repeatable
    (v : FootprintVariant) (params : FootprintParams) (s1 s2 : GenState)
    (ts : String) (uuids : Nat → String) :
    footprintGenerate v params s1 ts uuids =
      footprintGenerate v params s2 ts uuids ∧
    (∀ st out, footprintGenerate v params s1 ts uuids = .ok (st, out) →
      footprintGenerate v params st ts uuids = .ok (st, out)) := by
  constructor
  · exact footprintGenerate_state_blind v params s1 s2 ts uuids
  · intro st out h
    rw [footprintGenerate_state_blind v params st s1 ts uuids, h]

/-- C4 witness: the repeatability at the concrete QFN-32 parameters —
the second run from the first run's state reproduces it. -/
theorem generate_clears_state_witness :
    footprintGenerate .qfn qfn32Params {} "20260101" exampleUuids =
      footprintGenerate .qfn qfn32Params
        { pads := [], lines := [], circles := [],
          arcs := [⟨0, 0, 1, 1, 2, 2, "F.SilkS", 1/10⟩], texts := [] }
        "20260101" exampleUuids ∧
    (∀ st out,
      footprintGenerate .qfn qfn32Params {} "20260101" exampleUuids =
        .ok (st, out) →
      footprintGenerate .qfn qfn32Params st "20260101" exampleUuids =
        .ok (st, out)) :=
  generate_clears_state_and_is_repeatable .qfn qfn32Params {}
    { pads := [], lines := [], circles := [],
      arcs := [⟨0, 0, 1, 1, 2, 2, "F.SilkS", 1/10⟩], texts := [] }
    "20260101" exampleUuids

/-- C3 (code bug): `SymbolGenerator.layout_pins` does NOT overwrite the
previous layout — `_layout_single_unit` appends to `self.layouts` and
nothing clears it, so a second `layout_pins()` call on the same
instance leaves two layouts instead of one, and a second `generate()`
(which re-runs `layout_pins`) then serializes through the
`len(self.layouts) > 1` multi-unit branch. Evaluated here at a one-pin
single-unit component: after one call the layout list has length 1,
after two calls length 2, and the multi-unit branch condition flips. -/
theorem layout_pins_appends_instead_of_overwriting :
    symbolLayoutPins onePinComponent (symbolLayoutPins onePinComponent []) ≠
      symbolLayoutPins onePinComponent [] ∧
    (symbolLayoutPins onePinComponent []).length = 1 ∧
    (symbolLayoutPins onePinComponent
      (symbolLayoutPins onePinComponent [])).length = 2 ∧
    1 < (symbolLayoutPins onePinComponent
      (symbolLayoutPins onePinComponent [])).length ∧
    ¬ 1 < (symbolLayoutPins onePinComponent []).length := by
  have h1 : (symbolLayoutPins onePinComponent []).length = 1 := rfl
  have h2 : (symbolLayoutPins onePinComponent
      (symbolLayoutPins onePinComponent [])).length = 2 := rfl
  refine ⟨fun h => ?_, h1, h2, ?_, ?_⟩
  · rw [h] at h2
    omega
  · omega
  · omega

/-- A `ThermalPad` satisfying its field constraints validates to
itself. -/
theorem thermalPad_validate_ok (t : ThermalPad) (h1 : 0 < t.width)
    (h2 : 0 < t.height) (h3 : 0 < t.via_drill)
    (h4 : 0 < t.via_pad_diameter) (h5 : 0 ≤ t.paste_coverage)
    (h6 : t.paste_coverage ≤ 1) (h7 : 0 ≤ t.corner_radius) :
    t.validate = .ok t := by
  unfold ThermalPad.validate
  rw [if_pos]
  exact ⟨h1, h2, h3, h4, h5, h6, h7⟩

/-- A `PackageInfo` satisfying its field constraints validates to
itself. -/
theorem packageInfo_validate_ok (p : PackageInfo) (h1 : 0 < p.pin_count)
    (h2 : 0 < p.pitch) (h3 : 0 < p.body_width) (h4 : 0 < p.body_length)
    (h5 : 0 < p.body_height) (h6 : ∀ w ∈ p.lead_width, 0 < w)
    (h7 : ∀ w ∈ p.lead_length, 0 < w) (h8 : ∀ w ∈ p.lead_span, 0 < w)
    (h9 : ∀ t ∈ p.thermal_pad, t.validate = .ok t) :
    p.validate = .ok p := by
  unfold PackageInfo.validate
  rw [if_pos]
  · match hm : p.thermal_pad with
    | none => rfl
    | some t =>
      have := h9 t hm
      simp [this, bind, Except.bind]
  · exact ⟨h1, h2, h3, h4, h5, h6, h7, h8⟩

/-- A `PadDimensions` satisfying its field constraints validates to
itself. -/
theorem padDimensions_validate_ok (d : PadDimensions) (h1 : 0 < d.width)
    (h2 : 0 < d.height) (h3 : 0 ≤ d.corner_ratio)
    (h4 : d.corner_ratio ≤ 1/2) : d.validate = .ok d := by
  unfold PadDimensions.validate
  rw [if_pos]
  exact ⟨h1, h2, h3, h4⟩

/-- The parameters `create_qfn_footprint` builds for the `"QFN"`
variant with every optional argument omitted: the thermal pad is the
derived default square, the pad height is the derived default terminal
width, and the pad centers are the computed pad center offset for the
default 0.4 mm terminal length. -/
theorem createQfnParams_defaults (pins : Nat) (pitch bw bh : ℚ)
    (hp : 0 < pitch) (hw : 0 < bw) (hh : 0 < bh) (hdiv : pins % 4 = 0) :
    ∃ params,
      createQfnFootprintParams pins pitch bw none bh none none none "QFN" =
        .ok params ∧
      params.package.thermal_pad =
        some { width := qfnDefaultThermalPadSize bw bw,
               height := qfnDefaultThermalPadSize bw bw } ∧
      params.pad_size.height = qfnDefaultTerminalWidth pitch ∧
      params.pad_center_x = qfnPadCenter bw (4/10) ∧
      params.pad_center_y = qfnPadCenter bw (4/10) := by
  have htps : 0 < qfnDefaultThermalPadSize bw bw := by
    unfold qfnDefaultThermalPadSize
    rw [min_self]
    positivity
  have htw : 0 < qfnDefaultTerminalWidth pitch := by
    unfold qfnDefaultTerminalWidth
    positivity
  have hTV : ThermalPad.validate
      { width := qfnDefaultThermalPadSize bw bw,
         height := qfnDefaultThermalPadSize bw bw, via_count_x := 3,
         via_count_y := 3, via_drill := 3/10, via_pad_diameter := 1/2,
         pin_number := "EP" } =
      Except.ok
        { width := qfnDefaultThermalPadSize bw bw,
           height := qfnDefaultThermalPadSize bw bw, via_count_x := 3,
           via_count_y := 3, via_drill := 3/10, via_pad_diameter := 1/2,
           pin_number := "EP" } :=
    thermalPad_validate_ok _ htps htps (by norm_num) (by norm_num)
      (by norm_num) (by norm_num) (le_refl 0)
  have hPkgV : PackageInfo.validate
      { package_type := .qfn,
         package_name := strUpper "QFN" ++ "-" ++ Nat.repr pins,
         pin_count := pins + 1, pitch := pitch, body_width := bw,
         body_length := bw, body_height := bh,
         thermal_pad := some
           { width := qfnDefaultThermalPadSize bw bw,
              height := qfnDefaultThermalPadSize bw bw, via_count_x := 3,
              via_count_y := 3, via_drill := 3/10, via_pad_diameter := 1/2,
              pin_number := "EP" } } =
      Except.ok
        { package_type := .qfn,
           package_name := strUpper "QFN" ++ "-" ++ Nat.repr pins,
           pin_count := pins + 1, pitch := pitch, body_width := bw,
           body_length := bw, body_height := bh,
           thermal_pad := some
             { width := qfnDefaultThermalPadSize bw bw,
                height := qfnDefaultThermalPadSize bw bw, via_count_x := 3,
                via_count_y := 3, via_drill := 3/10,
                via_pad_diameter := 1/2, pin_number := "EP" } } := by
    refine packageInfo_validate_ok _ (Nat.succ_pos pins) hp hw hw hh
      (by simp) (by simp) (by simp) ?_
    intro t hm
    rw [Option.mem_def, Option.some_inj] at hm
    subst hm
    exact hTV
  have hPadV : PadDimensions.validate
      { width := 4/10 + 3/10, height := qfnDefaultTerminalWidth pitch,
         shape := .roundrect, corner_ratio := 25/100 } =
      Except.ok
        { width := 4/10 + 3/10, height := qfnDefaultTerminalWidth pitch,
           shape := .roundrect, corner_ratio := 25/100 } :=
    padDimensions_validate_ok _ (by norm_num) htw (by norm_num) (by norm_num)
  unfold createQfnFootprintParams
  simp only [Option.getD]
  rw [if_neg (show ¬(strUpper "QFN" = "DFN") by decide),
    if_neg (not_not_intro hdiv),
    if_neg (show ¬(strUpper "QFN" = "VQFN") by decide),
    if_neg (show ¬(strUpper "QFN" = "WQFN") by decide)]
  simp only [bind, Except.bind, pure, Except.pure, hTV, hPkgV, hPadV]
  exact ⟨_, rfl, rfl, rfl, rfl, rfl⟩

/-- C7 counterexample: the default terminal width derived by
`create_qfn_footprint` is `pitch * 0.5` — 50% of the pitch, not within
the claimed 55%–60% band (evaluated at pitch = 1 mm). -/
theorem qfn_default_terminal_width_is_half_pitch :
    qfnDefaultTerminalWidth 1 = 1/2 ∧
    ¬(55/100 ≤ qfnDefaultTerminalWidth 1 ∧
      qfnDefaultTerminalWidth 1 ≤ 60/100) := by
  constructor
  · norm_num [qfnDefaultTerminalWidth]
  · norm_num [qfnDefaultTerminalWidth]

/-- C7 (amended): with the optional arguments omitted,
`create_qfn_footprint` derives the thermal-pad size as 60% of the
smaller body dimension, the terminal width as exactly 50% of the pitch
(not 55%–60% as claimed), and the pad center as half the body width
minus half the terminal length plus the fixed 0.15 mm solder
extension — and those values are the ones in the validated parameter
object it generates from. -/
theorem qfn_derived_defaults (pins : Nat) (pitch bw bh : ℚ)
    (hp : 0 < pitch) (hw : 0 < bw) (hh : 0 < bh) (hdiv : pins % 4 = 0) :
    qfnDefaultThermalPadSize bw bw = min bw bw * (6/10) ∧
    qfnDefaultTerminalWidth pitch = pitch * (5/10) ∧
    qfnPadCenter bw (4/10) = bw / 2 - (4/10) / 2 + 15/100 ∧
    ∃ params,
      createQfnFootprintParams pins pitch bw none bh none none none "QFN" =
        .ok params ∧
      params.package.thermal_pad =
        some { width := qfnDefaultThermalPadSize bw bw,
               height := qfnDefaultThermalPadSize bw bw } ∧
      params.pad_size.height = qfnDefaultTerminalWidth pitch ∧
      params.pad_center_x = qfnPadCenter bw (4/10) ∧
      params.pad_center_y = qfnPadCenter bw (4/10) :=
  ⟨rfl, rfl, rfl, createQfnParams_defaults pins pitch bw bh hp hw hh hdiv⟩

/-- A list has pairwise-distinct entries exactly when it has the same
length as its deduplication (the embedded form of Python's
`len(numbers) != len(set(numbers))` test). -/
theorem nodup_iff_len_dedup (l : List String) :
    l.Nodup ↔ l.length = l.dedup.length := by
  constructor
  · intro h
    rw [List.dedup_eq_self.mpr h]
  · intro h
    have hsub := List.dedup_sublist l
    rw [← hsub.eq_of_length h.symm]
    exact List.nodup_dedup l

/-- The duplicate-collection loop records exactly the values occurring
at least twice in the remaining input (at least once if already seen). -/
theorem mem_findDuplicates (d : String) :
    ∀ (l seen : List String),
      d ∈ findDuplicates seen l ↔
        (if d ∈ seen then 1 else 2) ≤ l.count d := by
  intro l
  induction l with
  | nil =>
    intro seen
    by_cases hs : d ∈ seen <;> simp [findDuplicates, hs]
  | cons n rest ih =>
    intro seen
    by_cases hdn : d = n
    · subst hdn
      by_cases hs : d ∈ seen
      · have hc : seen.contains d = true := List.elem_iff.mpr hs
        simp [findDuplicates, hc, hs, List.count_cons]
      · have hc : seen.contains d = false := by
          rw [← Bool.not_eq_true]
          intro hcon
          exact hs (List.elem_iff.mp hcon)
        have hdd : d ∈ d :: seen := List.mem_cons_self d seen
        simp only [findDuplicates, hc, Bool.false_eq_true, if_false,
          List.nil_append, ih, hdd, if_true, if_neg hs, List.count_cons,
          beq_self_eq_true, if_pos]
        omega
    · have hnd : ¬ n = d := fun h => hdn h.symm
      have hcnt : (n :: rest).count d = rest.count d := by
        simp [List.count_cons, hnd]
      have hmm : (d ∈ n :: seen) = (d ∈ seen) := by
        simp [List.mem_cons, hdn]
      by_cases hs : seen.contains n
      · simp only [findDuplicates, hs, if_true, List.mem_append,
          List.mem_singleton, hdn, false_or, ih, hmm, hcnt]
      · simp only [findDuplicates, hs, Bool.false_eq_true, if_false,
          List.nil_append, ih, hmm, hcnt]

/-- C9: `ComponentInfo.validate_unique_pin_numbers` succeeds exactly
when the pin numbers are pairwise distinct (so a successfully
constructed component always has unique pin numbers), and on failure
the reported duplicate list is nonempty and names exactly the numbers
occurring at least twice. -/
theorem validate_unique_pin_numbers_spec (pins : List Pin) :
    (validate_unique_pin_numbers pins = .ok pins ↔
      (pins.map Pin.number).Nodup) ∧
    (∀ ds, validate_unique_pin_numbers pins = .error ds →
      ds ≠ [] ∧ ¬ (pins.map Pin.number).Nodup ∧
      ∀ d, d ∈ ds ↔ 2 ≤ (pins.map Pin.number).count d) := by
  by_cases h : (pins.map Pin.number).length = (pins.map Pin.number).dedup.length
  · have hok : validate_unique_pin_numbers pins = .ok pins := by
      unfold validate_unique_pin_numbers
      rw [if_neg (not_not_intro h)]
    refine ⟨?_, ?_⟩
    · rw [hok]
      simp only [true_iff]
      exact (nodup_iff_len_dedup _).mpr h
    · intro ds hds
      rw [hok] at hds
      exact absurd hds (by simp)
  · have herr : validate_unique_pin_numbers pins =
        .error (findDuplicates [] (pins.map Pin.number)) := by
      unfold validate_unique_pin_numbers
      rw [if_pos h]
    have hnotnodup : ¬ (pins.map Pin.number).Nodup := fun hn =>
      h ((nodup_iff_len_dedup _).mp hn)
    refine ⟨?_, ?_⟩
    · rw [herr]
      constructor
      · intro hcontra
        exact absurd hcontra (by simp)
      · intro hn
        exact absurd hn hnotnodup
    · intro ds hds
      rw [herr] at hds
      have hds' : ds = findDuplicates [] (pins.map Pin.number) := by
        exact (Except.error.injEq _ _).mp hds.symm
      subst hds'
      have hmem : ∀ d, d ∈ findDuplicates [] (pins.map Pin.number) ↔
          2 ≤ (pins.map Pin.number).count d := by
        intro d
        rw [mem_findDuplicates]
        simp
      refine ⟨?_, hnotnodup, hmem⟩
      have : ∃ d, 2 ≤ (pins.map Pin.number).count d := by
        by_contra hno
        push_neg at hno
        exact hnotnodup (List.nodup_iff_count_le_one.mpr (fun a => by
          have := hno a
          omega))
      rcases this with ⟨d, hd⟩
      exact List.ne_nil_of_mem ((hmem d).mpr hd)

/-- C9 witness: two pins numbered "1" are rejected with the duplicate
list `["1"]`, which names exactly the number occurring twice. -/
theorem validate_unique_pin_numbers_witness :
    validate_unique_pin_numbers dupPins = .error ["1"] ∧
    ["1"] ≠ [] ∧ ¬ (dupPins.map Pin.number).Nodup ∧
    (∀ d, d ∈ ["1"] ↔ 2 ≤ (dupPins.map Pin.number).count d) :=
  ⟨rfl, (validate_unique_pin_numbers_spec dupPins).2 ["1"] rfl⟩

/-- Inserting into a list adds exactly one element. -/
theorem mem_insertPin {a p : Pin} {l : List Pin} :
    a ∈ insertPin p l ↔ a = p ∨ a ∈ l := by
  induction l with
  | nil => simp [insertPin]
  | cons q rest ih =>
    by_cases h : pinKeyLe p q = true
    · simp [insertPin, h, List.mem_cons]
    · simp only [insertPin, h, Bool.false_eq_true, if_false, List.mem_cons,
        ih]
      tauto

/-- The stable sort is a permutation: membership is preserved. -/
theorem mem_sortPins {a : Pin} {l : List Pin} :
    a ∈ sortPins l ↔ a ∈ l := by
  induction l with
  | nil => simp [sortPins]
  | cons p rest ih =>
    simp [sortPins, mem_insertPin, ih]

/-- The sort preserves length. -/
theorem length_insertPin (p : Pin) (l : List Pin) :
    (insertPin p l).length = l.length + 1 := by
  induction l with
  | nil => rfl
  | cons q rest ih =>
    by_cases h : pinKeyLe p q = true
    · simp [insertPin, h]
    · simp [insertPin, h, ih]

/-- The sort preserves length. -/
theorem length_sortPins (l : List Pin) :
    (sortPins l).length = l.length := by
  induction l with
  | nil => rfl
  | cons p rest ih =>
    simp [sortPins, length_insertPin, ih]

/-- The classification loop of `_layout_single_unit` produces, for each
category, exactly the pins passing that category's guard and failing
every earlier guard, in input order. -/
theorem classifyPins_eq (pins : List Pin) :
    classifyPins pins =
      { ground := pins.filter (fun p => p.is_ground),
        power := pins.filter (fun p => !p.is_ground && p.is_supply),
        input := pins.filter (fun p => !p.is_ground && !p.is_supply &&
          p.electrical_type == .input),
        output := pins.filter (fun p => !p.is_ground && !p.is_supply &&
          p.electrical_type == .output),
        bidir := pins.filter (fun p => !p.is_ground && !p.is_supply &&
          p.electrical_type == .bidirectional),
        nc := pins.filter (fun p => !p.is_ground && !p.is_supply &&
          p.electrical_type == .not_connected),
        other := pins.filter (fun p => !p.is_ground && !p.is_supply &&
          !(p.electrical_type == .input) && !(p.electrical_type == .output) &&
          !(p.electrical_type == .bidirectional) &&
          !(p.electrical_type == .not_connected)) } := by
  induction pins with
  | nil => rfl
  | cons p rest ih =>
    simp only [classifyPins, ih]
    by_cases hg : p.is_ground = true
    · simp [List.filter_cons, hg]
    · by_cases hs : p.is_supply = true
      · simp [List.filter_cons, hg, hs]
      · by_cases hi : p.electrical_type = .input
        · simp [List.filter_cons, hg, hs, hi]
        · by_cases ho : p.electrical_type = .output
          · simp [List.filter_cons, hg, hs, hi, ho]
          · by_cases hb : p.electrical_type = .bidirectional
            · simp [List.filter_cons, hg, hs, hi, ho, hb]
            · by_cases hn : p.electrical_type = .not_connected
              · simp [List.filter_cons, hg, hs, hi, ho, hb, hn]
              · simp [List.filter_cons, hg, hs, hi, ho, hb, hn]

/-- C10: ground and supply classification is case-insensitive substring
containment of the fixed token tables anywhere in the pin name (so
`PGND_SENSE` is a ground pin and `VINTREF` a supply pin), and in the
single-unit symbol layout the ground test runs before the supply test,
so a pin whose name matches both patterns lands on the bottom side and
never on the top side. -/
theorem name_pattern_classification (p : Pin) (pins : List Pin) :
    (p.is_ground = true ↔
      ∃ t ∈ groundTokens, strContainsSub (strLower p.name) t = true) ∧
    (p.is_supply = true ↔
      ∃ t ∈ supplyTokens, strContainsSub (strLower p.name) t = true) ∧
    Pin.is_ground { number := "1", name := "PGND_SENSE" } = true ∧
    Pin.is_supply { number := "2", name := "VINTREF" } = true ∧
    (p.is_ground = true → p ∈ pins →
      p ∈ (singleUnitSides pins).bottom ∧
      p ∉ (singleUnitSides pins).top) := by
  refine ⟨?_, ?_, by decide, by decide, ?_⟩
  · simp [Pin.is_ground, List.any_eq_true]
  · simp [Pin.is_supply, List.any_eq_true]
  · intro hg hmem
    constructor
    · simp only [singleUnitSides, classifyPins_eq, List.mem_append,
        mem_sortPins]
      left
      exact List.mem_filter.mpr ⟨hmem, hg⟩
    · intro hcontra
      simp only [singleUnitSides, classifyPins_eq, mem_sortPins] at hcontra
      have := (List.mem_filter.mp hcontra).2
      rw [Bool.and_eq_true, Bool.not_eq_true'] at this
      rw [this.1] at hg
      exact Bool.false_ne_true hg

/-- C10 witness: a pin named `VDDGND` matches both tables and is placed
on the bottom side, not the top. -/
theorem name_pattern_classification_witness :
    bothPatternsPin.is_ground = true ∧ bothPatternsPin.is_supply = true ∧
    (bothPatternsPin ∈ (singleUnitSides [bothPatternsPin]).bottom ∧
      bothPatternsPin ∉ (singleUnitSides [bothPatternsPin]).top) :=
  ⟨by decide, by decide,
    (name_pattern_classification bothPatternsPin [bothPatternsPin]).2.2.2.2
      (by decide) (by decide)⟩

/-- C2: the single-unit side assignment. Each category holds the pins
passing its guard (in priority order: ground pattern, supply pattern,
then electrical type input / output / bidirectional / not-connected /
other), each category is sorted, the bidirectional pins split with the
first `K / 2` on the left, and the four sides are assembled as
left = inputs + first-half bidirectional + others,
right = outputs + second-half bidirectional, top = supplies,
bottom = grounds + not-connected. Consequently an all-ground pin set
lands entirely on the bottom, an all-supply set on top, all-input on
the left, all-output on the right, and an all-bidirectional set of
size K splits into `K / 2` on the left and the remainder on the right,
summing to K. -/
theorem single_unit_side_assignment (pins : List Pin) :
    (singleUnitSides pins).bottom =
      sortPins (pins.filter (fun p => p.is_ground)) ++
      sortPins (pins.filter (fun p => !p.is_ground && !p.is_supply &&
        p.electrical_type == .not_connected)) ∧
    (singleUnitSides pins).top =
      sortPins (pins.filter (fun p => !p.is_ground && p.is_supply)) ∧
    (singleUnitSides pins).left =
      sortPins (pins.filter (fun p => !p.is_ground && !p.is_supply &&
        p.electrical_type == .input)) ++
      ((sortPins (pins.filter (fun p => !p.is_ground && !p.is_supply &&
        p.electrical_type == .bidirectional))).take
        ((pins.filter (fun p => !p.is_ground && !p.is_supply &&
          p.electrical_type == .bidirectional)).length / 2) ++
      sortPins (pins.filter (fun p => !p.is_ground && !p.is_supply &&
        !(p.electrical_type == .input) && !(p.electrical_type == .output) &&
        !(p.electrical_type == .bidirectional) &&
        !(p.electrical_type == .not_connected)))) ∧
    (singleUnitSides pins).right =
      sortPins (pins.filter (fun p => !p.is_ground && !p.is_supply &&
        p.electrical_type == .output)) ++
      (sortPins (pins.filter (fun p => !p.is_ground && !p.is_supply &&
        p.electrical_type == .bidirectional))).drop
        ((pins.filter (fun p => !p.is_ground && !p.is_supply &&
          p.electrical_type == .bidirectional)).length / 2) ∧
    ((∀ p ∈ pins, p.is_ground = true) →
      (singleUnitSides pins).bottom = sortPins pins ∧
      (singleUnitSides pins).top = [] ∧
      (singleUnitSides pins).left = [] ∧
      (singleUnitSides pins).right = []) ∧
    ((∀ p ∈ pins, p.is_ground = false ∧ p.is_supply = true) →
      (singleUnitSides pins).top = sortPins pins ∧
      (singleUnitSides pins).bottom = [] ∧
      (singleUnitSides pins).left = [] ∧
      (singleUnitSides pins).right = []) ∧
    ((∀ p ∈ pins, p.is_ground = false ∧ p.is_supply = false ∧
        p.electrical_type = .input) →
      (singleUnitSides pins).left = sortPins pins ∧
      (singleUnitSides pins).right = [] ∧
      (singleUnitSides pins).top = [] ∧
      (singleUnitSides pins).bottom = []) ∧
    ((∀ p ∈ pins, p.is_ground = false ∧ p.is_supply = false ∧
        p.electrical_type = .output) →
      (singleUnitSides pins).right = sortPins pins ∧
      (singleUnitSides pins).left = [] ∧
      (singleUnitSides pins).top = [] ∧
      (singleUnitSides pins).bottom = []) ∧
    ((∀ p ∈ pins, p.is_ground = false ∧ p.is_supply = false ∧
        p.electrical_type = .bidirectional) →
      (singleUnitSides pins).left.length = pins.length / 2 ∧
      (singleUnitSides pins).left.length +
        (singleUnitSides pins).right.length = pins.length) := by
  have hmain := classifyPins_eq pins
  refine ⟨?_, ?_, ?_, ?_, ?_, ?_, ?_, ?_, ?_⟩
  · simp only [singleUnitSides, hmain]
  · simp only [singleUnitSides, hmain]
  · simp only [singleUnitSides, hmain, length_sortPins, List.append_assoc]
  · simp only [singleUnitSides, hmain, length_sortPins, List.append_assoc]
  · intro h
    have hg : pins.filter (fun p => p.is_ground) = pins :=
      List.filter_eq_self.mpr h
    have hpnil : pins.filter (fun p => !p.is_ground && p.is_supply) = [] :=
      List.filter_eq_nil_iff.mpr (fun p hp => by simp [h p hp])
    have hinil : pins.filter (fun p => !p.is_ground && !p.is_supply &&
        p.electrical_type == .input) = [] :=
      List.filter_eq_nil_iff.mpr (fun p hp => by simp [h p hp])
    have honil : pins.filter (fun p => !p.is_ground && !p.is_supply &&
        p.electrical_type == .output) = [] :=
      List.filter_eq_nil_iff.mpr (fun p hp => by simp [h p hp])
    have hbnil : pins.filter (fun p => !p.is_ground && !p.is_supply &&
        p.electrical_type == .bidirectional) = [] :=
      List.filter_eq_nil_iff.mpr (fun p hp => by simp [h p hp])
    have hnnil : pins.filter (fun p => !p.is_ground && !p.is_supply &&
        p.electrical_type == .not_connected) = [] :=
      List.filter_eq_nil_iff.mpr (fun p hp => by simp [h p hp])
    have hmnil : pins.filter (fun p => !p.is_ground && !p.is_supply &&
        !(p.electrical_type == .input) && !(p.electrical_type == .output) &&
        !(p.electrical_type == .bidirectional) &&
        !(p.electrical_type == .not_connected)) = [] :=
      List.filter_eq_nil_iff.mpr (fun p hp => by simp [h p hp])
    simp only [singleUnitSides, hmain, hg, hpnil, hinil, honil, hbnil,
      hnnil, hmnil, sortPins, List.append_nil, List.nil_append,
      List.take_nil, List.drop_nil, List.length_nil]
    refine ⟨?_, ?_, ?_, ?_⟩ <;> first | rfl | trivial
  · intro h
    have hs : pins.filter (fun p => !p.is_ground && p.is_supply) = pins :=
      List.filter_eq_self.mpr (fun p hp => by simp [(h p hp).1, (h p hp).2])
    have hgnil : pins.filter (fun p => p.is_ground) = [] :=
      List.filter_eq_nil_iff.mpr (fun p hp => by simp [(h p hp).1])
    have hinil : pins.filter (fun p => !p.is_ground && !p.is_supply &&
        p.electrical_type == .input) = [] :=
      List.filter_eq_nil_iff.mpr (fun p hp => by simp [(h p hp).2])
    have honil : pins.filter (fun p => !p.is_ground && !p.is_supply &&
        p.electrical_type == .output) = [] :=
      List.filter_eq_nil_iff.mpr (fun p hp => by simp [(h p hp).2])
    have hbnil : pins.filter (fun p => !p.is_ground && !p.is_supply &&
        p.electrical_type == .bidirectional) = [] :=
      List.filter_eq_nil_iff.mpr (fun p hp => by simp [(h p hp).2])
    have hnnil : pins.filter (fun p => !p.is_ground && !p.is_supply &&
        p.electrical_type == .not_connected) = [] :=
      List.filter_eq_nil_iff.mpr (fun p hp => by simp [(h p hp).2])
    have hmnil : pins.filter (fun p => !p.is_ground && !p.is_supply &&
        !(p.electrical_type == .input) && !(p.electrical_type == .output) &&
        !(p.electrical_type == .bidirectional) &&
        !(p.electrical_type == .not_connected)) = [] :=
      List.filter_eq_nil_iff.mpr (fun p hp => by simp [(h p hp).2])
    simp only [singleUnitSides, hmain, hs, hgnil, hinil, honil, hbnil,
      hnnil, hmnil, sortPins, List.append_nil, List.nil_append,
      List.take_nil, List.drop_nil, List.length_nil]
    refine ⟨?_, ?_, ?_, ?_⟩ <;> first | rfl | trivial
  · intro h
    have hi : pins.filter (fun p => !p.is_ground && !p.is_supply &&
        p.electrical_type == .input) = pins :=
      List.filter_eq_self.mpr (fun p hp => by
        simp [(h p hp).1, (h p hp).2.1, (h p hp).2.2])
    have hgnil : pins.filter (fun p => p.is_ground) = [] :=
      List.filter_eq_nil_iff.mpr (fun p hp => by simp [(h p hp).1])
    have hsnil : pins.filter (fun p => !p.is_ground && p.is_supply) = [] :=
      List.filter_eq_nil_iff.mpr (fun p hp => by simp [(h p hp).2.1])
    have hmnil : pins.filter (fun p => !p.is_ground && !p.is_supply &&
        !(p.electrical_type == .input) && !(p.electrical_type == .output) &&
        !(p.electrical_type == .bidirectional) &&
        !(p.electrical_type == .not_connected)) = [] :=
      List.filter_eq_nil_iff.mpr (fun p hp => by simp [(h p hp).2.2])
    have hbnil : pins.filter (fun p => !p.is_ground && !p.is_supply &&
        p.electrical_type == .bidirectional) = [] :=
      List.filter_eq_nil_iff.mpr (fun p hp => by simp [(h p hp).2.2])
    have honil : pins.filter (fun p => !p.is_ground && !p.is_supply &&
        p.electrical_type == .output) = [] :=
      List.filter_eq_nil_iff.mpr (fun p hp => by simp [(h p hp).2.2])
    have hnnil : pins.filter (fun p => !p.is_ground && !p.is_supply &&
        p.electrical_type == .not_connected) = [] :=
      List.filter_eq_nil_iff.mpr (fun p hp => by simp [(h p hp).2.2])
    simp only [singleUnitSides, hmain, hi, hgnil, hsnil, hmnil, hbnil,
      honil, hnnil, sortPins, List.append_nil, List.nil_append,
      List.take_nil, List.drop_nil, List.length_nil]
    refine ⟨?_, ?_, ?_, ?_⟩ <;> first | rfl | trivial
  · intro h
    have ho : pins.filter (fun p => !p.is_ground && !p.is_supply &&
        p.electrical_type == .output) = pins :=
      List.filter_eq_self.mpr (fun p hp => by
        simp [(h p hp).1, (h p hp).2.1, (h p hp).2.2])
    have hgnil : pins.filter (fun p => p.is_ground) = [] :=
      List.filter_eq_nil_iff.mpr (fun p hp => by simp [(h p hp).1])
    have hsnil : pins.filter (fun p => !p.is_ground && p.is_supply) = [] :=
      List.filter_eq_nil_iff.mpr (fun p hp => by simp [(h p hp).2.1])
    have hinil : pins.filter (fun p => !p.is_ground && !p.is_supply &&
        p.electrical_type == .input) = [] :=
      List.filter_eq_nil_iff.mpr (fun p hp => by simp [(h p hp).2.2])
    have hbnil : pins.filter (fun p => !p.is_ground && !p.is_supply &&
        p.electrical_type == .bidirectional) = [] :=
      List.filter_eq_nil_iff.mpr (fun p hp => by simp [(h p hp).2.2])
    have hnnil : pins.filter (fun p => !p.is_ground && !p.is_supply &&
        p.electrical_type == .not_connected) = [] :=
      List.filter_eq_nil_iff.mpr (fun p hp => by simp [(h p hp).2.2])
    have hrest : pins.filter (fun p => !p.is_ground && !p.is_supply &&
        !(p.electrical_type == .input) && !(p.electrical_type == .output) &&
        !(p.electrical_type == .bidirectional) &&
        !(p.electrical_type == .not_connected)) = [] :=
      List.filter_eq_nil_iff.mpr (fun p hp => by simp [(h p hp).2.2])
    simp only [singleUnitSides, hmain, ho, hgnil, hsnil, hinil, hbnil,
      hnnil, hrest, sortPins, List.append_nil, List.nil_append,
      List.take_nil, List.drop_nil, List.length_nil]
    refine ⟨?_, ?_, ?_, ?_⟩ <;> first | rfl | trivial
  · intro h
    have hb : pins.filter (fun p => !p.is_ground && !p.is_supply &&
        p.electrical_type == .bidirectional) = pins :=
      List.filter_eq_self.mpr (fun p hp => by
        simp [(h p hp).1, (h p hp).2.1, (h p hp).2.2])
    have hgnil : pins.filter (fun p => p.is_ground) = [] :=
      List.filter_eq_nil_iff.mpr (fun p hp => by simp [(h p hp).1])
    have hsnil : pins.filter (fun p => !p.is_ground && p.is_supply) = [] :=
      List.filter_eq_nil_iff.mpr (fun p hp => by simp [(h p hp).2.1])
    have hinil : pins.filter (fun p => !p.is_ground && !p.is_supply &&
        p.electrical_type == .input) = [] :=
      List.filter_eq_nil_iff.mpr (fun p hp => by simp [(h p hp).2.2])
    have honil : pins.filter (fun p => !p.is_ground && !p.is_supply &&
        p.electrical_type == .output) = [] :=
      List.filter_eq_nil_iff.mpr (fun p hp => by simp [(h p hp).2.2])
    have hrest : pins.filter (fun p => !p.is_ground && !p.is_supply &&
        !(p.electrical_type == .input) && !(p.electrical_type == .output) &&
        !(p.electrical_type == .bidirectional) &&
        !(p.electrical_type == .not_connected)) = [] :=
      List.filter_eq_nil_iff.mpr (fun p hp => by simp [(h p hp).2.2])
    have hnnil : pins.filter (fun p => !p.is_ground && !p.is_supply &&
        p.electrical_type == .not_connected) = [] :=
      List.filter_eq_nil_iff.mpr (fun p hp => by simp [(h p hp).2.2])
    have hlen : (sortPins pins).length = pins.length := length_sortPins pins
    simp only [singleUnitSides, hmain, hb, hgnil, hsnil, hinil, honil,
      hrest, hnnil, sortPins, List.append_nil, List.nil_append,
      List.length_append, List.length_take, List.length_drop,
      length_sortPins]
    omega

/-- C2 witness: four bidirectional pins split two to the left and two
to the right, summing to four. -/
theorem single_unit_side_assignment_witness :
    (singleUnitSides bidirPins).left.length = bidirPins.length / 2 ∧
    (singleUnitSides bidirPins).left.length +
      (singleUnitSides bidirPins).right.length = bidirPins.length :=
  (single_unit_side_assignment bidirPins).2.2.2.2.2.2.2.2 (by decide)

/-- The strict character-list comparison is irreflexive. -/
theorem charListLt_irrefl : ∀ as, charListLt as as = false := by
  intro as
  induction as with
  | nil => rfl
  | cons a rest ih => simp [charListLt, ih]

/-- The strict character-list comparison is transitive. -/
theorem charListLt_trans : ∀ {as bs cs : List Char},
    charListLt as bs = true → charListLt bs cs = true →
    charListLt as cs = true := by
  intro as
  induction as with
  | nil =>
    intro bs cs h1 h2
    cases bs with
    | nil => exact absurd h1 (by simp [charListLt])
    | cons b bs =>
      cases cs with
      | nil => exact absurd h2 (by simp [charListLt])
      | cons c cs => rfl
  | cons a rest ih =>
    intro bs cs h1 h2
    cases bs with
    | nil => exact absurd h1 (by simp [charListLt])
    | cons b bs =>
      cases cs with
      | nil => exact absurd h2 (by simp [charListLt])
      | cons c cs =>
        simp only [charListLt] at h1 h2 ⊢
        by_cases hab : a.toNat < b.toNat
        · by_cases hbc : b.toNat < c.toNat
          · rw [if_pos (by omega)]
          · by_cases hcb : c.toNat < b.toNat
            · simp [hbc, hcb] at h2
            · rw [if_pos (by omega)]
        · by_cases hba : b.toNat < a.toNat
          · simp [hab, hba] at h1
          · by_cases hbc : b.toNat < c.toNat
            · rw [if_pos (by omega)]
            · by_cases hcb : c.toNat < b.toNat
              · simp [hbc, hcb] at h2
              · simp only [hab, hba, if_false] at h1
                simp only [hbc, hcb, if_false] at h2
                rw [if_neg (by omega), if_neg (by omega)]
                exact ih h1 h2

/-- The strict character-list comparison is trichotomous. -/
theorem charListLt_trichotomy : ∀ (as bs : List Char),
    charListLt as bs = true ∨ charListLt bs as = true ∨ as = bs := by
  intro as
  induction as with
  | nil =>
    intro bs
    cases bs with
    | nil => exact Or.inr (Or.inr rfl)
    | cons b bs => exact Or.inl rfl
  | cons a rest ih =>
    intro bs
    cases bs with
    | nil => exact Or.inr (Or.inl rfl)
    | cons b bs =>
      by_cases hab : a.toNat < b.toNat
      · left
        simp [charListLt, hab]
      · by_cases hba : b.toNat < a.toNat
        · right
          left
          simp [charListLt, hba]
        · have hval : a = b :=
            Char.ext (UInt32.toNat.inj (show a.toNat = b.toNat by omega))
          subst hval
          rcases ih bs with h | h | h
          · left
            simp [charListLt, h]
          · right
            left
            simp [charListLt, h]
          · right
            right
            rw [h]

/-- The strict character-list comparison is asymmetric. -/
theorem charListLt_asymm {as bs : List Char}
    (h : charListLt as bs = true) : charListLt bs as = false := by
  by_contra hc
  rw [Bool.not_eq_false] at hc
  have := charListLt_trans h hc
  rw [charListLt_irrefl] at this
  exact Bool.false_ne_true this

/-- The key comparison is total. -/
theorem pinKeyLe_total (p q : Pin) :
    pinKeyLe p q = true ∨ pinKeyLe q p = true := by
  unfold pinKeyLe strLt strLe
  rcases charListLt_trichotomy p.name.data q.name.data with h | h | h
  · left
    simp [strLt, h]
  · right
    simp [strLt, h]
  · have hn : p.name = q.name := String.ext h
    rcases charListLt_trichotomy p.number.data q.number.data with h2 | h2 | h2
    · left
      simp [strLt, hn, charListLt_asymm h2]
    · right
      simp [strLt, hn, charListLt_asymm h2]
    · left
      have hnum : p.number = q.number := String.ext h2
      simp [strLt, hn, hnum, charListLt_irrefl]

/-- The key comparison is transitive. -/
theorem pinKeyLe_trans {p q r : Pin} (h1 : pinKeyLe p q = true)
    (h2 : pinKeyLe q r = true) : pinKeyLe p r = true := by
  unfold pinKeyLe strLt strLe at h1 h2 ⊢
  rw [Bool.or_eq_true, Bool.and_eq_true, beq_iff_eq] at h1 h2 ⊢
  rcases h1 with h1 | ⟨h1e, h1n⟩
  · rcases h2 with h2 | ⟨h2e, _⟩
    · exact Or.inl (charListLt_trans h1 h2)
    · rw [← h2e]
      exact Or.inl h1
  · rcases h2 with h2 | ⟨h2e, h2n⟩
    · rw [h1e]
      exact Or.inl h2
    · refine Or.inr ⟨h1e.trans h2e, ?_⟩
      simp only [Bool.not_eq_true'] at h1n h2n ⊢
      change charListLt q.number.data p.number.data = false at h1n
      change charListLt r.number.data q.number.data = false at h2n
      change charListLt r.number.data p.number.data = false
      by_contra hc
      rw [Bool.not_eq_false] at hc
      rcases charListLt_trichotomy r.number.data q.number.data with h3 | h3 | h3
      · simp [h3] at h2n
      · have := charListLt_trans h3 hc
        simp [this] at h1n
      · rw [h3] at hc
        simp [hc] at h1n

/-- Inserting into a sorted list keeps it sorted. -/
theorem isSortedByKey_insertPin (p : Pin) (l : List Pin)
    (h : isSortedByKey l = true) :
    isSortedByKey (insertPin p l) = true := by
  induction l with
  | nil => rfl
  | cons q rest ih =>
    by_cases hpq : pinKeyLe p q = true
    · simpa [insertPin, hpq, isSortedByKey] using h
    · have hqp : pinKeyLe q p = true :=
        (pinKeyLe_total p q).resolve_left hpq
      cases rest with
      | nil => simp [insertPin, hpq, isSortedByKey, hqp]
      | cons r rest2 =>
        have hpair : pinKeyLe q r = true ∧ isSortedByKey (r :: rest2) = true := by
          simpa [isSortedByKey, Bool.and_eq_true] using h
        have ihs := ih hpair.2
        by_cases hpr : pinKeyLe p r = true
        · simp only [insertPin, hpq, Bool.false_eq_true, if_false, hpr,
            if_true, isSortedByKey, Bool.and_eq_true]
          exact ⟨hqp, trivial, hpair.2⟩
        · simp only [insertPin, hpq, Bool.false_eq_true, if_false, hpr,
            isSortedByKey, Bool.and_eq_true]
          refine ⟨hpair.1, ?_⟩
          simpa [insertPin, hpr] using ihs

/-- The stable sort produces a list sorted by the `(name, number)`
key. -/
theorem isSortedByKey_sortPins (l : List Pin) :
    isSortedByKey (sortPins l) = true := by
  induction l with
  | nil => rfl
  | cons p rest ih => exact isSortedByKey_insertPin p (sortPins rest) ih

/-- C8 counterexample: a left side combining an input pin named `Z`
with an other-typed pin named `A` is `[Z, A]` — NOT sorted by
`(name, number)`; only the per-category lists are sorted before
concatenation. -/
theorem mixed_left_side_not_sorted :
    isSortedByKey (singleUnitSides mixedLeftPins).left = false ∧
    (singleUnitSides mixedLeftPins).left.map Pin.name = ["Z", "A"] := by
  constructor
  · decide
  · decide

/-- C8 (amended): within each classification category the pins are
sorted by `(name, number)`, and each side is the concatenation of its
categories' sorted lists (left = inputs + first-half bidirectional +
others, right = outputs + second-half bidirectional, top = supplies,
bottom = grounds + not-connected); a side made of a single category —
such as the top side — is therefore sorted, but a mixed side is only
piecewise sorted. -/
theorem sides_concatenate_sorted_categories (pins : List Pin) :
    isSortedByKey (sortPins (classifyPins pins).ground) = true ∧
    isSortedByKey (sortPins (classifyPins pins).power) = true ∧
    isSortedByKey (sortPins (classifyPins pins).input) = true ∧
    isSortedByKey (sortPins (classifyPins pins).output) = true ∧
    isSortedByKey (sortPins (classifyPins pins).bidir) = true ∧
    isSortedByKey (sortPins (classifyPins pins).nc) = true ∧
    isSortedByKey (sortPins (classifyPins pins).other) = true ∧
    isSortedByKey (singleUnitSides pins).top = true ∧
    (singleUnitSides pins).top = sortPins (classifyPins pins).power ∧
    (singleUnitSides pins).bottom =
      sortPins (classifyPins pins).ground ++
      sortPins (classifyPins pins).nc ∧
    (singleUnitSides pins).left =
      sortPins (classifyPins pins).input ++
      ((sortPins (classifyPins pins).bidir).take
        ((classifyPins pins).bidir.length / 2) ++
      sortPins (classifyPins pins).other) ∧
    (singleUnitSides pins).right =
      sortPins (classifyPins pins).output ++
      (sortPins (classifyPins pins).bidir).drop
        ((classifyPins pins).bidir.length / 2) := by
  refine ⟨isSortedByKey_sortPins _, isSortedByKey_sortPins _,
    isSortedByKey_sortPins _, isSortedByKey_sortPins _,
    isSortedByKey_sortPins _, isSortedByKey_sortPins _,
    isSortedByKey_sortPins _, ?_, ?_, ?_, ?_, ?_⟩
  · simp only [singleUnitSides]
    exact isSortedByKey_sortPins _
  · simp only [singleUnitSides]
  · simp only [singleUnitSides]
  · simp only [singleUnitSides, length_sortPins, List.append_assoc]
  · simp only [singleUnitSides, length_sortPins]

/-- Splitting a map over `range (a + b)` into two blocks. -/
theorem map_range_add {α : Type} (a b : Nat) (f : Nat → α) :
    (List.range (a + b)).map f =
      (List.range a).map f ++ (List.range b).map (fun i => f (a + i)) := by
  rw [List.range_add, List.map_append, List.map_map]
  rfl

/-- Adjacent entries of an arithmetic progression differ by exactly the
step. -/
theorem apQ_spacing (start step : ℚ) (n i : Nat) (a b : ℚ)
    (ha : (apQ start step n)[i]? = some a)
    (hb : (apQ start step n)[i + 1]? = some b) :
    b - a = step := by
  unfold apQ at ha hb
  rw [List.getElem?_map] at ha hb
  by_cases hi1 : i + 1 < n
  · have hi : i < n := by omega
    rw [List.getElem?_range hi] at ha
    rw [List.getElem?_range hi1] at hb
    have ha' : start + (i : ℚ) * step = a := by simpa using ha
    have hb' : start + ((i : Nat) + 1 : ℚ) * step = b := by
      have := hb
      simp at this
      exact this
    rw [← ha', ← hb']
    ring
  · have hnone : (List.range n)[i + 1]? = none :=
      List.getElem?_eq_none (by rw [List.length_range]; omega)
    rw [hnone] at hb
    exact absurd hb (by simp)

/-- C1: `QFPFootprintGenerator.calculate_pads` on a package with a
per-side pin count `n` produces exactly `4 * n` pads numbered
`"1" … "4n"` in list order; the first quarter sits at `x = -pad_center_x`
with `y` an arithmetic progression stepping `+pitch` (top to bottom),
the second quarter at `y = +pad_center_y` with `x` stepping `+pitch`
(left to right), the third at `x = +pad_center_x` with `y` stepping
`-pitch` (bottom to top), the last at `y = -pad_center_y` with `x`
stepping `-pitch` (right to left); quarters one and three keep the
nominal pad width/height while quarters two and four have them
swapped; and adjacent pads of a quarter are spaced by exactly the
configured pitch (difference equal to pitch, hence within the claimed
0.001 mm). -/
theorem qfp_calculate_pads_spec (params : FootprintParams) (n : Nat)
    (h : params.package.pins_per_side = some n) :
    ∃ L, qfpCalculatePads params = .ok L ∧
      L.length = 4 * n ∧
      L.map Pad.number =
        (List.range (4 * n)).map (fun i => Nat.repr (i + 1)) ∧
      (sideBlock L 0 n).map Pad.x =
        List.replicate n (-params.pad_center_x) ∧
      (sideBlock L 0 n).map Pad.y =
        apQ (-((((n : ℚ) - 1) * params.package.pitch) / 2))
          params.package.pitch n ∧
      (sideBlock L 1 n).map Pad.y = List.replicate n params.pad_center_y ∧
      (sideBlock L 1 n).map Pad.x =
        apQ (-((((n : ℚ) - 1) * params.package.pitch) / 2))
          params.package.pitch n ∧
      (sideBlock L 2 n).map Pad.x = List.replicate n params.pad_center_x ∧
      (sideBlock L 2 n).map Pad.y =
        apQ ((((n : ℚ) - 1) * params.package.pitch) / 2)
          (-params.package.pitch) n ∧
      (sideBlock L 3 n).map Pad.y =
        List.replicate n (-params.pad_center_y) ∧
      (sideBlock L 3 n).map Pad.x =
        apQ ((((n : ℚ) - 1) * params.package.pitch) / 2)
          (-params.package.pitch) n ∧
      (sideBlock L 0 n).map Pad.width =
        List.replicate n params.pad_size.width ∧
      (sideBlock L 0 n).map Pad.height =
        List.replicate n params.pad_size.height ∧
      (sideBlock L 2 n).map Pad.width =
        List.replicate n params.pad_size.width ∧
      (sideBlock L 2 n).map Pad.height =
        List.replicate n params.pad_size.height ∧
      (sideBlock L 1 n).map Pad.width =
        List.replicate n params.pad_size.height ∧
      (sideBlock L 1 n).map Pad.height =
        List.replicate n params.pad_size.width ∧
      (sideBlock L 3 n).map Pad.width =
        List.replicate n params.pad_size.height ∧
      (sideBlock L 3 n).map Pad.height =
        List.replicate n params.pad_size.width ∧
      (∀ i a b, ((sideBlock L 0 n).map Pad.y)[i]? = some a →
        ((sideBlock L 0 n).map Pad.y)[i + 1]? = some b →
        b - a = params.package.pitch ∧
        |b - a - params.package.pitch| ≤ 1/1000) ∧
      (∀ i a b, ((sideBlock L 1 n).map Pad.x)[i]? = some a →
        ((sideBlock L 1 n).map Pad.x)[i + 1]? = some b →
        b - a = params.package.pitch ∧
        |b - a - params.package.pitch| ≤ 1/1000) ∧
      (∀ i a b, ((sideBlock L 2 n).map Pad.y)[i]? = some a →
        ((sideBlock L 2 n).map Pad.y)[i + 1]? = some b →
        a - b = params.package.pitch ∧
        |a - b - params.package.pitch| ≤ 1/1000) ∧
      (∀ i a b, ((sideBlock L 3 n).map Pad.x)[i]? = some a →
        ((sideBlock L 3 n).map Pad.x)[i + 1]? = some b →
        a - b = params.package.pitch ∧
        |a - b - params.package.pitch| ≤ 1/1000) := by
  simp only [qfpCalculatePads, h]
  refine ⟨_, rfl, ?_⟩
  have hlen : ∀ f : Nat → Pad, ((List.range n).map f).length = n := by
    simp
  set A := (List.range n).map (qfpSide1Pad params n) with hA
  set B := (List.range n).map (qfpSide2Pad params n) with hB
  set C := (List.range n).map (qfpSide3Pad params n) with hC
  set D := (List.range n).map (qfpSide4Pad params n) with hD
  have e0 : sideBlock (A ++ (B ++ (C ++ D))) 0 n = A := by
    unfold sideBlock
    rw [Nat.zero_mul, List.drop_zero, List.take_left' (hlen _)]
  have e1 : sideBlock (A ++ (B ++ (C ++ D))) 1 n = B := by
    unfold sideBlock
    rw [Nat.one_mul, List.drop_left' (hlen _), List.take_left' (hlen _)]
  have e2 : sideBlock (A ++ (B ++ (C ++ D))) 2 n = C := by
    unfold sideBlock
    rw [show 2 * n = n + n by ring, ← List.drop_drop,
      List.drop_left' (hlen _), List.drop_left' (hlen _),
      List.take_left' (hlen _)]
  have e3 : sideBlock (A ++ (B ++ (C ++ D))) 3 n = D := by
    unfold sideBlock
    rw [show 3 * n = n + (n + n) by ring, ← List.drop_drop, ← List.drop_drop,
      List.drop_left' (hlen _), List.drop_left' (hlen _),
      List.drop_left' (hlen _), show n = D.length from (hlen _).symm,
      List.take_length]
  have gy0 : (sideBlock (A ++ (B ++ (C ++ D))) 0 n).map Pad.y =
      apQ (-((((n : ℚ) - 1) * params.package.pitch) / 2))
        params.package.pitch n := by
    rw [e0, hA, List.map_map]
    rfl
  have gx1 : (sideBlock (A ++ (B ++ (C ++ D))) 1 n).map Pad.x =
      apQ (-((((n : ℚ) - 1) * params.package.pitch) / 2))
        params.package.pitch n := by
    rw [e1, hB, List.map_map]
    rfl
  have gy2 : (sideBlock (A ++ (B ++ (C ++ D))) 2 n).map Pad.y =
      apQ ((((n : ℚ) - 1) * params.package.pitch) / 2)
        (-params.package.pitch) n := by
    rw [e2, hC, List.map_map]
    unfold apQ
    refine List.map_congr_left ?_
    intro i _
    show (((n : ℚ) - 1) * params.package.pitch) / 2 -
      (i : ℚ) * params.package.pitch = _
    ring
  have gx3 : (sideBlock (A ++ (B ++ (C ++ D))) 3 n).map Pad.x =
      apQ ((((n : ℚ) - 1) * params.package.pitch) / 2)
        (-params.package.pitch) n := by
    rw [e3, hD, List.map_map]
    unfold apQ
    refine List.map_congr_left ?_
    intro i _
    show (((n : ℚ) - 1) * params.package.pitch) / 2 -
      (i : ℚ) * params.package.pitch = _
    ring
  have repl : ∀ (f : Nat → Pad) (g : Pad → ℚ) (c : ℚ),
      (∀ i : Nat, g (f i) = c) →
      ((List.range n).map f).map g = List.replicate n c := by
    intro f g c hfg
    rw [List.map_map]
    have hc : List.map (g ∘ f) (List.range n) =
        List.map (fun _ : Nat => c) (List.range n) :=
      List.map_congr_left (fun i _ => hfg i)
    rw [hc, List.map_const', List.length_range]
  refine ⟨?_, ?_, ?_, gy0, ?_, gx1, ?_, gy2, ?_, gx3, ?_, ?_, ?_, ?_, ?_,
    ?_, ?_, ?_, ?_, ?_, ?_, ?_⟩
  · rw [hA, hB, hC, hD]
    simp only [List.length_append, List.length_map, List.length_range]
    ring
  · rw [show 4 * n = n + (n + (n + n)) by ring, map_range_add,
      map_range_add, map_range_add, hA, hB, hC, hD]
    simp only [List.map_append, List.map_map]
    have b3 : List.map (Pad.number ∘ qfpSide3Pad params n) (List.range n) =
        List.map (fun i : Nat => Nat.repr (n + (n + i) + 1))
          (List.range n) :=
      List.map_congr_left (fun i _ => congrArg Nat.repr (by omega))
    have b4 : List.map (Pad.number ∘ qfpSide4Pad params n) (List.range n) =
        List.map (fun i : Nat => Nat.repr (n + (n + (n + i)) + 1))
          (List.range n) :=
      List.map_congr_left (fun i _ => congrArg Nat.repr (by omega))
    rw [b3, b4]
    rfl
  · rw [e0, hA]
    exact repl (qfpSide1Pad params n) Pad.x (-params.pad_center_x)
      (fun i => rfl)
  · rw [e1, hB]
    exact repl (qfpSide2Pad params n) Pad.y params.pad_center_y
      (fun i => rfl)
  · rw [e2, hC]
    exact repl (qfpSide3Pad params n) Pad.x params.pad_center_x
      (fun i => rfl)
  · rw [e3, hD]
    exact repl (qfpSide4Pad params n) Pad.y (-params.pad_center_y)
      (fun i => rfl)
  · rw [e0, hA]
    exact repl (qfpSide1Pad params n) Pad.width params.pad_size.width
      (fun i => rfl)
  · rw [e0, hA]
    exact repl (qfpSide1Pad params n) Pad.height params.pad_size.height
      (fun i => rfl)
  · rw [e2, hC]
    exact repl (qfpSide3Pad params n) Pad.width params.pad_size.width
      (fun i => rfl)
  · rw [e2, hC]
    exact repl (qfpSide3Pad params n) Pad.height params.pad_size.height
      (fun i => rfl)
  · rw [e1, hB]
    exact repl (qfpSide2Pad params n) Pad.width params.pad_size.height
      (fun i => rfl)
  · rw [e1, hB]
    exact repl (qfpSide2Pad params n) Pad.height params.pad_size.width
      (fun i => rfl)
  · rw [e3, hD]
    exact repl (qfpSide4Pad params n) Pad.width params.pad_size.height
      (fun i => rfl)
  · rw [e3, hD]
    exact repl (qfpSide4Pad params n) Pad.height params.pad_size.width
      (fun i => rfl)
  · intro i a b ha hb
    rw [gy0] at ha hb
    have hstep := apQ_spacing _ _ n i a b ha hb
    constructor
    · exact hstep
    · rw [hstep, sub_self, abs_zero]
      norm_num
  · intro i a b ha hb
    rw [gx1] at ha hb
    have hstep := apQ_spacing _ _ n i a b ha hb
    constructor
    · exact hstep
    · rw [hstep, sub_self, abs_zero]
      norm_num
  · intro i a b ha hb
    rw [gy2] at ha hb
    have hstep := apQ_spacing _ _ n i a b ha hb
    constructor
    · linarith
    · have h2 : a - b = params.package.pitch := by linarith
      rw [h2, sub_self, abs_zero]
      norm_num
  · intro i a b ha hb
    rw [gx3] at ha hb
    have hstep := apQ_spacing _ _ n i a b ha hb
    constructor
    · linarith
    · have h2 : a - b = params.package.pitch := by linarith
      rw [h2, sub_self, abs_zero]
      norm_num

/-- C1 witness: the LQFP-48 parameters have 12 pins per side, and the
computed pad list has 48 pads numbered "1".."48" in order. -/
theorem qfp_calculate_pads_witness :
    lqfp48Params.package.pins_per_side = some 12 ∧
    ∃ L, qfpCalculatePads lqfp48Params = .ok L ∧ L.length = 4 * 12 ∧
      L.map Pad.number =
        (List.range (4 * 12)).map (fun i => Nat.repr (i + 1)) :=
  ⟨rfl, (qfp_calculate_pads_spec lqfp48Params 12 rfl).imp
    (fun _ hL => ⟨hL.1, hL.2.1, hL.2.2.1⟩)⟩

/-- A string differing from the heatsink marker at some index is not
the marker. -/
theorem ne_marker_of_getElem (s : String) (i : Nat) (c : Char)
    (hc : s.data[i]? = some c)
    (hne : ¬ heatsinkMarker.data[i]? = some c) : s ≠ heatsinkMarker :=
  fun h => hne (h ▸ hc)

/-- Congruence for `flatMap`. -/
theorem flatMap_congr {α β : Type} (l : List α) (f g : α → List β)
    (h : ∀ a ∈ l, f a = g a) : l.flatMap f = l.flatMap g := by
  induction l with
  | nil => rfl
  | cons x xs ih =>
    rw [List.flatMap_cons, List.flatMap_cons, h x (List.mem_cons_self x xs),
      ih (fun a ha => h a (List.mem_cons_of_mem x ha))]

/-- The heatsink marker line occurs among the parts of a formatted pad
exactly when the pad carries the heatsink property: every other part of
`_format_pad` starts with a different literal prefix. -/
theorem heatsinkMarker_mem_formatPadParts (pad : Pad) (u : String) :
    heatsinkMarker ∈ formatPadParts pad u ↔ pad.property_heatsink = true := by
  have hhead : "  (pad \"" ++ pad.number ++ "\" " ++ pad.pad_type.value ++
      " " ++ pad.shape.value ≠ heatsinkMarker := by
    refine ne_marker_of_getElem _ 2 '(' ?_ (by decide)
    simp only [String.data_append, List.append_assoc]
    rw [List.getElem?_append_left (by decide)]
    decide
  have hat1 : "    (at " ++ fmt4 pad.x ++ " " ++ fmt4 pad.y ++ " " ++
      fmtPlain pad.rot ++ ")" ≠ heatsinkMarker := by
    refine ne_marker_of_getElem _ 5 'a' ?_ (by decide)
    simp only [String.data_append, List.append_assoc]
    rw [List.getElem?_append_left (by decide)]
    decide
  have hat2 : "    (at " ++ fmt4 pad.x ++ " " ++ fmt4 pad.y ++ ")" ≠
      heatsinkMarker := by
    refine ne_marker_of_getElem _ 5 'a' ?_ (by decide)
    simp only [String.data_append, List.append_assoc]
    rw [List.getElem?_append_left (by decide)]
    decide
  have hsize : "    (size " ++ fmt4 pad.width ++ " " ++ fmt4 pad.height ++
      ")" ≠ heatsinkMarker := by
    refine ne_marker_of_getElem _ 5 's' ?_ (by decide)
    simp only [String.data_append, List.append_assoc]
    rw [List.getElem?_append_left (by decide)]
    decide
  have hdrill1 : ∀ wh : ℚ × ℚ, "    (drill oval " ++ fmt4 wh.1 ++ " " ++
      fmt4 wh.2 ++ ")" ≠ heatsinkMarker := by
    intro wh
    refine ne_marker_of_getElem _ 5 'd' ?_ (by decide)
    simp only [String.data_append, List.append_assoc]
    rw [List.getElem?_append_left (by decide)]
    decide
  have hdrill2 : ∀ d : ℚ, "    (drill " ++ fmt4 d ++ ")" ≠
      heatsinkMarker := by
    intro d
    refine ne_marker_of_getElem _ 5 'd' ?_ (by decide)
    simp only [String.data_append, List.append_assoc]
    rw [List.getElem?_append_left (by decide)]
    decide
  have hlayers : "    (layers " ++
      joinSpaced (pad.layers.map (fun l => "\"" ++ l ++ "\"")) ++ ")" ≠
      heatsinkMarker := by
    refine ne_marker_of_getElem _ 5 'l' ?_ (by decide)
    simp only [String.data_append, List.append_assoc]
    rw [List.getElem?_append_left (by decide)]
    decide
  have hrr : "    (roundrect_rratio " ++ fmtPlain pad.corner_ratio ++ ")" ≠
      heatsinkMarker := by
    refine ne_marker_of_getElem _ 5 'r' ?_ (by decide)
    simp only [String.data_append, List.append_assoc]
    rw [List.getElem?_append_left (by decide)]
    decide
  have huuid : "    (uuid " ++ u ++ ")" ≠ heatsinkMarker := by
    refine ne_marker_of_getElem _ 5 'u' ?_ (by decide)
    simp only [String.data_append, List.append_assoc]
    rw [List.getElem?_append_left (by decide)]
    decide
  have hclose : ("  )" : String) ≠ heatsinkMarker := by decide
  constructor
  · intro hmem
    by_contra hns
    rw [Bool.not_eq_true] at hns
    unfold formatPadParts at hmem
    rw [hns] at hmem
    simp only [Bool.false_eq_true, if_false, List.append_nil,
      List.nil_append, List.mem_append, List.mem_cons, List.mem_singleton,
      List.not_mem_nil, or_false, false_or] at hmem
    rcases hmem with (((((hmem | hmem) | hmem) | hmem) | hmem) | hmem) | hmem | hmem
    · exact hhead hmem.symm
    · by_cases hrot : pad.rot ≠ 0
      · rw [if_pos hrot] at hmem
        exact hat1 hmem.symm
      · rw [if_neg hrot] at hmem
        exact hat2 hmem.symm
    · exact hsize hmem.symm
    · cases hd : pad.drill with
      | none => rw [hd] at hmem; exact absurd hmem (by simp)
      | some d =>
        rw [hd] at hmem
        cases ho : pad.drill_oval with
        | none =>
          rw [ho] at hmem
          simp only [List.mem_singleton] at hmem
          exact hdrill2 d hmem.symm
        | some wh =>
          rw [ho] at hmem
          simp only [List.mem_singleton] at hmem
          exact hdrill1 wh hmem.symm
    · exact hlayers hmem.symm
    · by_cases hsh : pad.shape = PadShape.roundrect
      · rw [if_pos hsh] at hmem
        simp only [List.mem_singleton] at hmem
        exact hrr hmem.symm
      · rw [if_neg hsh] at hmem
        exact absurd hmem (by simp)
    · exact huuid hmem.symm
    · exact hclose hmem.symm
  · intro hflag
    unfold formatPadParts
    rw [hflag]
    simp [List.mem_append]

/-- Both concrete `calculate_pads` implementations produce only normal
pads: none carries the heatsink property. -/
theorem variantCalculatePads_no_heatsink (v : FootprintVariant)
    (params : FootprintParams) (pads : List Pad)
    (h : variantCalculatePads v params = .ok pads) :
    ∀ p ∈ pads, p.property_heatsink = false := by
  cases v with
  | qfp =>
    simp only [variantCalculatePads] at h
    unfold qfpCalculatePads at h
    cases hpps : params.package.pins_per_side with
    | none =>
      rw [hpps] at h
      exact absurd h (by simp)
    | some n =>
      rw [hpps] at h
      have hp := Except.ok.inj h
      subst hp
      intro p hp
      simp only [List.mem_append, List.mem_map] at hp
      rcases hp with ⟨i, _, rfl⟩ | ⟨i, _, rfl⟩ | ⟨i, _, rfl⟩ | ⟨i, _, rfl⟩ <;>
        rfl
  | qfn =>
    simp only [variantCalculatePads] at h
    unfold qfnCalculatePads at h
    by_cases hd : params.package.is_dual = true
    · rw [if_pos hd] at h
      have hp := Except.ok.inj h
      subst hp
      intro p hp
      unfold qfnCalculateDualPads at hp
      simp only [List.mem_append, List.mem_map] at hp
      rcases hp with ⟨i, _, rfl⟩ | ⟨i, _, rfl⟩ <;> rfl
    · rw [if_neg hd] at h
      have hp := Except.ok.inj h
      subst hp
      intro p hp
      unfold qfnCalculateQuadPads at hp
      simp only [List.mem_append, List.mem_map] at hp
      rcases hp with
        ((⟨i, _, rfl⟩ | ⟨i, _, rfl⟩) | ⟨i, _, rfl⟩) | ⟨i, _, rfl⟩ <;>
        rfl

/-- An effective thermal pad implies the `has_thermal_pad` flag. -/
theorem has_thermal_of_thermal (params : FootprintParams) (t : ThermalPad)
    (ht : params.thermal_pad = some t) :
    params.has_thermal_pad = true := by
  unfold FootprintParams.thermal_pad at ht
  unfold FootprintParams.has_thermal_pad
  cases ho : params.thermal_pad_override with
  | some o => simp [ho]
  | none =>
    rw [ho] at ht
    simp only [Option.orElse] at ht
    unfold PackageInfo.has_thermal_pad
    simp only [ho, Option.isSome_none, Bool.false_or]
    rw [show params.package.thermal_pad = some t from ht]
    rfl

/-- The via grid of `add_thermal_pad`, written as the claim's formula:
vias on a `count_x × count_y` rectangular grid with spacing
`width/(count_x+1)` and `height/(count_y+1)`, starting one spacing unit
inside each edge. -/
def thermalViaGrid (t : ThermalPad) : List Pad :=
  (List.range t.via_count_x).flatMap (fun i : Nat =>
    (List.range t.via_count_y).map (fun j : Nat =>
      ({ number := t.pin_number, pad_type := .thru_hole, shape := .circle,
         x := -(t.width / 2) +
           ((i : ℚ) + 1) * (t.width / ((t.via_count_x : ℚ) + 1)),
         y := -(t.height / 2) +
           ((j : ℚ) + 1) * (t.height / ((t.via_count_y : ℚ) + 1)),
         width := t.via_pad_diameter, height := t.via_pad_diameter,
         drill := some t.via_drill, layers := ["*.Cu"],
         property_heatsink := true } : Pad)))

/-- The main thermal pad of `add_thermal_pad` (SMD rectangle at the
origin, no paste layer, no heatsink property). -/
def thermalMainPad (t : ThermalPad) : Pad :=
  { number := t.pin_number, pad_type := .smd, shape := .rectangle,
    x := 0, y := 0, width := t.width, height := t.height,
    layers := ["F.Cu", "F.Mask"] }

/-- `add_thermal_pad` with a nonempty via grid appends the main pad
followed by exactly the grid of `thermalViaGrid`. -/
theorem addThermalPad_eq (t : ThermalPad) (hx : 0 < t.via_count_x)
    (hy : 0 < t.via_count_y) :
    addThermalPad t = thermalMainPad t :: thermalViaGrid t := by
  have htot : 0 < t.total_via_count := Nat.mul_pos hx hy
  simp only [addThermalPad, thermalMainPad, thermalViaGrid, if_pos htot]
  congr 1
  refine flatMap_congr _ _ _ ?_
  intro i _
  refine List.map_congr_left ?_
  intro j _
  simp only [Pad.mk.injEq, and_true, true_and]
  exact ⟨by ring, by ring⟩

/-- Every via in the grid carries the heatsink property. -/
theorem thermalViaGrid_all_heatsink (t : ThermalPad) :
    ∀ p ∈ thermalViaGrid t, p.property_heatsink = true := by
  intro p hp
  unfold thermalViaGrid at hp
  simp only [List.mem_flatMap, List.mem_map] at hp
  rcases hp with ⟨i, _, j, _, rfl⟩
  rfl

/-- The via grid has exactly `count_x * count_y` entries. -/
theorem thermalViaGrid_length (t : ThermalPad) :
    (thermalViaGrid t).length = t.via_count_x * t.via_count_y := by
  simp only [thermalViaGrid, List.length_flatMap, Function.comp_def,
    List.length_map, List.length_range, List.map_const', List.sum_replicate,
    smul_eq_mul]

/-- C6: when the effective thermal pad has a positive `count_x × count_y`
via grid, the generated state contains exactly `count_x * count_y`
heatsink-tagged pads — precisely the through-hole vias of the evenly
spaced grid (spacing `width/(count_x+1)` by `height/(count_y+1)`,
starting one spacing inside each edge) — in addition to the one main
thermal pad; and a serialized pad element carries the
`pad_prop_heatsink` marker line exactly when its pad has the heatsink
property. -/
theorem thermal_via_grid_spec (v : FootprintVariant)
    (params : FootprintParams) (t : ThermalPad)
    (ht : params.thermal_pad = some t)
    (hx : 0 < t.via_count_x) (hy : 0 < t.via_count_y) :
    (∀ (p : Pad) (u : String),
      heatsinkMarker ∈ formatPadParts p u ↔ p.property_heatsink = true) ∧
    ∀ (prior : GenState) (ts : String) (uuids : Nat → String)
      (st : GenState) (out : String),
      footprintGenerate v params prior ts uuids = .ok (st, out) →
      st.pads.filter (fun p => p.property_heatsink) = thermalViaGrid t ∧
      (st.pads.filter (fun p => p.property_heatsink)).length =
        t.via_count_x * t.via_count_y ∧
      thermalMainPad t ∈ st.pads ∧
      (thermalMainPad t).property_heatsink = false := by
  refine ⟨heatsinkMarker_mem_formatPadParts, ?_⟩
  intro prior ts uuids st out hgen
  cases hbase : variantCalculatePads v params with
  | error e =>
    rw [footprintGenerate, hbase] at hgen
    exact absurd hgen (by simp)
  | ok base =>
    have hno := variantCalculatePads_no_heatsink v params base hbase
    simp only [footprintGenerate, clearState, hbase, ht,
      has_thermal_of_thermal params t ht, if_true, List.nil_append] at hgen
    have hpair := Except.ok.inj hgen
    injection hpair with hst hout
    have hp : st.pads = base ++ addThermalPad t := by rw [← hst]
    rw [hp, addThermalPad_eq t hx hy]
    have hfilter : (base ++ thermalMainPad t :: thermalViaGrid t).filter
        (fun p => p.property_heatsink) = thermalViaGrid t := by
      rw [List.filter_append, List.filter_cons]
      have h1 : base.filter (fun p => p.property_heatsink) = [] := by
        rw [List.filter_eq_nil_iff]
        intro p hpmem
        simp [hno p hpmem]
      have hm : (thermalMainPad t).property_heatsink = false := rfl
      rw [h1, List.nil_append, hm]
      simp only [Bool.false_eq_true, if_false]
      exact List.filter_eq_self.mpr (thermalViaGrid_all_heatsink t)
    refine ⟨hfilter, ?_, ?_, rfl⟩
    · rw [hfilter, thermalViaGrid_length]
    · exact List.mem_append.mpr (Or.inr (List.mem_cons_self _ _))

/-- C6 witness: the marker characterization instantiated at the QFN-32
thermal pad's main pad and a concrete uuid, with the thermal-pad
hypotheses discharged at `qfn32Params`. -/
theorem thermal_via_grid_witness :
    heatsinkMarker ∈ formatPadParts (thermalMainPad exampleThermal) "u1" ↔
      (thermalMainPad exampleThermal).property_heatsink = true :=
  (thermal_via_grid_spec .qfn qfn32Params exampleThermal rfl (by decide)
    (by decide)).1 (thermalMainPad exampleThermal) "u1"

/-- Peeling the first line off a `"\n".join` of a list with at least
two entries. -/
theorem joinLines_cons (x : String) (l : List String) (hl : l ≠ []) :
    joinLines (x :: l) = x ++ "\n" ++ joinLines l := by
  cases l with
  | nil => exact absurd rfl hl
  | cons y ys => rfl

/-- A `"\n".join` whose input ends with entry `b` after at least one
other entry ends with a newline followed by `b`. -/
theorem joinLines_append_last (xs : List String) (b : String)
    (hxs : xs ≠ []) :
    ∃ m, joinLines (xs ++ [b]) = m ++ ("\n" ++ b) := by
  induction xs with
  | nil => exact absurd rfl hxs
  | cons x xs ih =>
    cases hx : xs with
    | nil =>
      subst hx
      refine ⟨x, ?_⟩
      show x ++ "\n" ++ b = x ++ ("\n" ++ b)
      rw [String.append_assoc]
    | cons y ys =>
      subst hx
      obtain ⟨m, hm⟩ := ih (by simp)
      refine ⟨x ++ "\n" ++ m, ?_⟩
      show x ++ "\n" ++ joinLines ((y :: ys) ++ [b]) =
        x ++ "\n" ++ m ++ ("\n" ++ b)
      rw [hm, String.append_assoc (x ++ "\n") m ("\n" ++ b)]

/-- The document shape of a joined line list that opens with a
`pre ++ name ++ "` header line and closes with `)`. -/
theorem joinLines_doc_shape (pre name : String) (L : List String)
    (hL : L ≠ []) :
    ∃ mid, joinLines ((pre ++ name ++ "\"") :: (L ++ [")"])) =
      pre ++ (mid ++ ("\n" ++ ")")) := by
  obtain ⟨m, hm⟩ := joinLines_append_last L ")" hL
  have hne : L ++ [")"] ≠ [] := by simp
  refine ⟨name ++ "\"" ++ "\n" ++ m, ?_⟩
  rw [joinLines_cons _ _ hne, hm]
  simp only [String.append_assoc]

/-- Every serialized footprint document is complete: it opens with the
`(footprint "` header and closes with the lone `)` on the final line. -/
theorem buildSexpr_shape (params : FootprintParams) (st : GenState)
    (ts : String) (uuids : Nat → String) :
    ∃ mid, buildSexpr params st ts uuids =
      "(footprint \"" ++ (mid ++ ("\n" ++ ")")) := by
  unfold buildSexpr
  refine joinLines_doc_shape "(footprint \"" params.footprint_name _ ?_
  simp

/-- A successful `generate` returns exactly the serialization of the
state it returns. -/
theorem footprintGenerate_ok_snd (v : FootprintVariant)
    (params : FootprintParams) (prior : GenState) (ts : String)
    (uuids : Nat → String) (r : GenState × String)
    (h : footprintGenerate v params prior ts uuids = .ok r) :
    r.2 = buildSexpr params r.1 ts uuids := by
  cases hbase : variantCalculatePads v params with
  | error e =>
    rw [footprintGenerate, hbase] at h
    exact Except.noConfusion h
  | ok base =>
    simp only [footprintGenerate, hbase] at h
    have hr := Except.ok.inj h
    subst hr
    rfl

/-- C5: the convenience entry points validate pin-count divisibility
first — for every combination of the remaining arguments,
`create_qfp_footprint` fails with the divisible-by-4 error whenever
`pins % 4 ≠ 0`, and `create_qfn_footprint` fails with the
divisible-by-2 (DFN) or divisible-by-4 (QFN family) error — and
whenever either entry point succeeds, the returned text is one complete
footprint document: it opens with the `(footprint "` header and closes
with the final `)`. -/
theorem divisibility_validated_first (pins : Nat)
    (pitch body_width body_length lead_span body_height : ℚ)
    (lead_width : Option ℚ) (variant : String)
    (body_length2 : Option ℚ) (body_height2 : ℚ)
    (terminal_length terminal_width thermal_pad_size : Option ℚ)
    (variant2 : String) (ts : String) (uuids : Nat → String) :
    (pins % 4 ≠ 0 →
      createQfpFootprint pins pitch body_width body_length lead_span
        body_height lead_width variant ts uuids =
        .error "QFP pin count must be divisible by 4") ∧
    (strUpper variant2 = "DFN" → pins % 2 ≠ 0 →
      createQfnFootprint pins pitch body_width body_length2 body_height2
        terminal_length terminal_width thermal_pad_size variant2 ts uuids =
        .error "DFN pin count must be divisible by 2") ∧
    (strUpper variant2 ≠ "DFN" → pins % 4 ≠ 0 →
      createQfnFootprint pins pitch body_width body_length2 body_height2
        terminal_length terminal_width thermal_pad_size variant2 ts uuids =
        .error "QFN pin count must be divisible by 4") ∧
    (∀ doc, createQfpFootprint pins pitch body_width body_length lead_span
        body_height lead_width variant ts uuids = .ok doc →
      ∃ mid, doc = "(footprint \"" ++ (mid ++ ("\n" ++ ")"))) ∧
    (∀ doc, createQfnFootprint pins pitch body_width body_length2
        body_height2 terminal_length terminal_width thermal_pad_size
        variant2 ts uuids = .ok doc →
      ∃ mid, doc = "(footprint \"" ++ (mid ++ ("\n" ++ ")"))) := by
  refine ⟨?_, ?_, ?_, ?_, ?_⟩
  · intro h4
    have hp : createQfpFootprintParams pins pitch body_width body_length
        lead_span body_height lead_width variant =
        .error "QFP pin count must be divisible by 4" := by
      unfold createQfpFootprintParams
      rw [if_pos h4]
    rw [createQfpFootprint, hp]
  · intro hv h2
    have hp : createQfnFootprintParams pins pitch body_width body_length2
        body_height2 terminal_length terminal_width thermal_pad_size
        variant2 = .error "DFN pin count must be divisible by 2" := by
      simp only [createQfnFootprintParams]
      rw [hv, if_pos (show ("DFN" : String) = "DFN" from rfl), if_pos h2]
    rw [createQfnFootprint, hp]
  · intro hv h4
    have hp : createQfnFootprintParams pins pitch body_width body_length2
        body_height2 terminal_length terminal_width thermal_pad_size
        variant2 = .error "QFN pin count must be divisible by 4" := by
      simp only [createQfnFootprintParams]
      rw [if_neg hv, if_pos h4]
    rw [createQfnFootprint, hp]
  · intro doc h
    rw [createQfpFootprint] at h
    split at h
    · exact Except.noConfusion h
    · rename_i params hP
      split at h
      · exact Except.noConfusion h
      · rename_i r hG
        obtain ⟨mid, hmid⟩ := buildSexpr_shape params r.1 ts uuids
        refine ⟨mid, ?_⟩
        rw [← Except.ok.inj h,
          footprintGenerate_ok_snd .qfp params {} ts uuids r hG, hmid]
  · intro doc h
    rw [createQfnFootprint] at h
    split at h
    · exact Except.noConfusion h
    · rename_i params hP
      split at h
      · exact Except.noConfusion h
      · rename_i r hG
        obtain ⟨mid, hmid⟩ := buildSexpr_shape params r.1 ts uuids
        refine ⟨mid, ?_⟩
        rw [← Except.ok.inj h,
          footprintGenerate_ok_snd .qfn params {} ts uuids r hG, hmid]

/-- C5 witness: the three divisibility errors at concrete calls — a
30-pin QFP request, a 31-pin DFN request and a 30-pin QFN request. -/
theorem divisibility_validated_first_witness :
    createQfpFootprint 30 (1/2) 7 7 9 1 none "LQFP" "2024-01-01"
      exampleUuids = .error "QFP pin count must be divisible by 4" ∧
    createQfnFootprint 31 (1/2) 5 none (9/10) none none none "DFN"
      "2024-01-01" exampleUuids =
      .error "DFN pin count must be divisible by 2" ∧
    createQfnFootprint 30 (1/2) 5 none (9/10) none none none "QFN"
      "2024-01-01" exampleUuids =
      .error "QFN pin count must be divisible by 4" :=
  ⟨(divisibility_validated_first 30 (1/2) 7 7 9 1 none "LQFP" none (9/10)
      none none none "DFN" "2024-01-01" exampleUuids).1 (by decide),
   (divisibility_validated_first 31 (1/2) 5 7 9 1 none "LQFP" none (9/10)
      none none none "DFN" "2024-01-01" exampleUuids).2.1 (by decide)
      (by decide),
   (divisibility_validated_first 30 (1/2) 5 7 9 1 none "LQFP" none (9/10)
      none none none "QFN" "2024-01-01" exampleUuids).2.2.1 (by decide)
      (by decide)⟩

/-- C7 witness: the amended defaults at a concrete QFN-32 call
(pitch 1 mm, 5 mm body). -/
theorem qfn_derived_defaults_witness :
    qfnDefaultThermalPadSize 5 5 = min 5 5 * (6/10) ∧
    qfnDefaultTerminalWidth 1 = 1 * (5/10) ∧
    qfnPadCenter 5 (4/10) = 5 / 2 - (4/10) / 2 + 15/100 ∧
    ∃ params,
      createQfnFootprintParams 32 1 5 none 1 none none none "QFN" =
        .ok params ∧
      params.package.thermal_pad =
        some { width := qfnDefaultThermalPadSize 5 5,
               height := qfnDefaultThermalPadSize 5 5 } ∧
      params.pad_size.height = qfnDefaultTerminalWidth 1 ∧
      params.pad_center_x = qfnPadCenter 5 (4/10) ∧
      params.pad_center_y = qfnPadCenter 5 (4/10) :=
  qfn_derived_defaults 32 1 5 1 (by norm_num) (by norm_num) (by norm_num)
    (by norm_num)

end KiForge
